import Mathlib

/-!
Verification development for the mcp-croit-ceph repository.

This file gives a shallow embedding, in Lean 4, of the parts of the source
relevant to the frozen claims:

* `src/src/logs/croit_log_tools.py` — the natural-language log search layer
  (`LogSearchIntentParser.parse`, `LogsQLBuilder.build`,
  `CroitLogSearchClient.search_logs` / `_execute_http_query`,
  `_extract_logs_from_zip`, the analysis pipeline).
* `src/src/optimization/token_optimizer.py` — the token optimization layer
  (`TokenOptimizer.apply_filters`, `truncate_response`,
  `optimize_api_response`, `ResponseCache`).

Modelling conventions, used throughout and noted again at each definition:

* Python strings are modelled as `List Char` (operations are ASCII-faithful;
  the source is only ever exercised on ASCII command text).
* Python dict/list/JSON values are modelled by the inductive `PyVal`;
  dictionaries are association lists with first-key-wins lookup (Python dicts
  have unique keys, which insertion maintains).
* Library calls that are external to the repository (the `re` regex engine on
  arbitrary user-supplied patterns, `json.loads`, `hashlib.md5`, wall-clock
  time) are modelled as explicit function parameters or integer-valued clocks,
  never as stubs of repository logic.  The five fixed regexes of
  `LogSearchIntentParser.PATTERNS` and the fixed service/time regexes are
  translated concretely, since they are repository data.
* Machine floats appear only as `time.time()` values and numeric filter
  comparisons; both are modelled over `Int` (the claims under examination are
  insensitive to the numeric domain, only to ordering and equality).
-/

namespace McpCroit

/-! ## Basic character and string primitives (Python semantics, ASCII) -/

/-- Python `str.lower()` on one character (ASCII range; the source only
lowercases command/query text). -/
def pyLowerChar (c : Char) : Char := c.toLower

/-- Python `str.lower()`: character-wise lowercasing. -/
def pyLower (s : List Char) : List Char := s.map pyLowerChar

/-- Python regex `\w` (ASCII): letters, digits, underscore. -/
def isWordChar (c : Char) : Bool := c.isAlphanum || c == '_'

/-- Python `str.isspace` / regex `\s` members: space, tab, newline, carriage
return, vertical tab, form feed. -/
def isPySpace (c : Char) : Bool :=
  c == ' ' || c == '\t' || c == '\n' || c == '\r' || c == '\x0b' || c == '\x0c'

/-- `p` is a prefix of `s` (character lists). -/
def hasPre : List Char → List Char → Bool
  | [], _ => true
  | _ :: _, [] => false
  | p :: ps, c :: cs => p == c && hasPre ps cs

/-- Python `pat in s`: substring containment. -/
def containsSub (pat : List Char) : List Char → Bool
  | [] => pat.isEmpty
  | c :: cs => hasPre pat (c :: cs) || containsSub pat cs

/-- Python `any(w in s for w in ws)`. -/
def containsAny (ws : List (List Char)) (s : List Char) : Bool :=
  ws.any fun w => containsSub w s

/-- String-literal convenience: `pat in s` on Lean strings. -/
def strIn (pat : String) (s : List Char) : Bool := containsSub pat.data s

/-- Python `str.strip()`: remove leading and trailing whitespace. -/
def pyStrip (s : List Char) : List Char :=
  ((s.dropWhile isPySpace).reverse.dropWhile isPySpace).reverse

/-- Python `str.split("\n")`: split on every newline, keeping empty pieces. -/
def splitNl : List Char → List (List Char)
  | [] => [[]]
  | c :: cs =>
    if c == '\n' then [] :: splitNl cs
    else
      match splitNl cs with
      | [] => [[c]]
      | piece :: rest => (c :: piece) :: rest

/-- Worker for `replaceAll`: while `skip > 0` the characters of an already
matched occurrence are consumed silently; at `skip = 0` a match of `old`
emits `new` and schedules the rest of the occurrence for skipping.
(Structured as a skip counter so the recursion is structural on the
string.) -/
def replaceAllGo (old new : List Char) : Nat → List Char → List Char
  | _, [] => []
  | skip + 1, _ :: cs => replaceAllGo old new skip cs
  | 0, c :: cs =>
    match old with
    | [] => c :: replaceAllGo old new 0 cs
    | o :: os =>
      if hasPre (o :: os) (c :: cs) then new ++ replaceAllGo old new os.length cs
      else c :: replaceAllGo old new 0 cs

/-- Python `str.replace(old, new)` (all non-overlapping occurrences, left to
right; `old` is nonempty at every call site). -/
def replaceAll (old new : List Char) (s : List Char) : List Char :=
  replaceAllGo old new 0 s

/-- Decimal rendering of a natural number (used to model Python `str(int)`
and f-string interpolation of integers). -/
def natStr (n : Nat) : List Char := (toString n).data

/-- Decimal rendering of an integer. -/
def intStr (n : Int) : List Char := (toString n).data

/-! ## Python values

`PyVal` models the JSON-shaped Python values flowing through the optimizer
and the log pipeline: `None`, booleans, integers, strings, lists and
string-keyed dictionaries. -/

inductive PyVal where
  | pnone : PyVal
  | pbool : Bool → PyVal
  | pint : Int → PyVal
  | pstr : String → PyVal
  | plist : List PyVal → PyVal
  | pdict : List (String × PyVal) → PyVal
deriving Repr

mutual

/-- Structural equality on `PyVal` (models Python `==` on the JSON fragment;
the cross-type numeric coercions of Python `==` are irrelevant here because
the embedded data stays within one type per field). -/
def pyBeq : PyVal → PyVal → Bool
  | .pnone, .pnone => true
  | .pbool a, .pbool b => a == b
  | .pint a, .pint b => a == b
  | .pstr a, .pstr b => a == b
  | .plist a, .plist b => pyBeqList a b
  | .pdict a, .pdict b => pyBeqDict a b
  | _, _ => false

/-- Elementwise equality of `PyVal` lists. -/
def pyBeqList : List PyVal → List PyVal → Bool
  | [], [] => true
  | a :: as_, b :: bs => pyBeq a b && pyBeqList as_ bs
  | _, _ => false

/-- Entrywise equality of `PyVal` dictionaries (insertion order is part of
our model, as it is of Python dicts). -/
def pyBeqDict : List (String × PyVal) → List (String × PyVal) → Bool
  | [], [] => true
  | (ka, va) :: as_, (kb, vb) :: bs => ka == kb && pyBeq va vb && pyBeqDict as_ bs
  | _, _ => false

end

mutual

theorem pyBeq_iff_eq : ∀ a b : PyVal, pyBeq a b = true ↔ a = b
  | .pnone, .pnone => by simp [pyBeq]
  | .pnone, .pbool _ | .pnone, .pint _ | .pnone, .pstr _ | .pnone, .plist _
  | .pnone, .pdict _ => by simp [pyBeq]
  | .pbool _, .pnone | .pbool _, .pint _ | .pbool _, .pstr _ | .pbool _, .plist _
  | .pbool _, .pdict _ => by simp [pyBeq]
  | .pbool a, .pbool b => by simp [pyBeq]
  | .pint _, .pnone | .pint _, .pbool _ | .pint _, .pstr _ | .pint _, .plist _
  | .pint _, .pdict _ => by simp [pyBeq]
  | .pint a, .pint b => by simp [pyBeq]
  | .pstr _, .pnone | .pstr _, .pbool _ | .pstr _, .pint _ | .pstr _, .plist _
  | .pstr _, .pdict _ => by simp [pyBeq]
  | .pstr a, .pstr b => by simp [pyBeq]
  | .plist _, .pnone | .plist _, .pbool _ | .plist _, .pint _ | .plist _, .pstr _
  | .plist _, .pdict _ => by simp [pyBeq]
  | .plist a, .plist b => by
      simp only [pyBeq, pyBeqList_iff_eq a b, PyVal.plist.injEq]
  | .pdict _, .pnone | .pdict _, .pbool _ | .pdict _, .pint _ | .pdict _, .pstr _
  | .pdict _, .plist _ => by simp [pyBeq]
  | .pdict a, .pdict b => by
      simp only [pyBeq, pyBeqDict_iff_eq a b, PyVal.pdict.injEq]

theorem pyBeqList_iff_eq : ∀ a b : List PyVal, pyBeqList a b = true ↔ a = b
  | [], [] => by simp [pyBeqList]
  | [], _ :: _ => by simp [pyBeqList]
  | _ :: _, [] => by simp [pyBeqList]
  | a :: as_, b :: bs => by
      simp only [pyBeqList, Bool.and_eq_true, pyBeq_iff_eq a b,
        pyBeqList_iff_eq as_ bs, List.cons.injEq]

theorem pyBeqDict_iff_eq :
    ∀ a b : List (String × PyVal), pyBeqDict a b = true ↔ a = b
  | [], [] => by simp [pyBeqDict]
  | [], _ :: _ => by simp [pyBeqDict]
  | _ :: _, [] => by simp [pyBeqDict]
  | (ka, va) :: as_, (kb, vb) :: bs => by
      simp only [pyBeqDict, Bool.and_eq_true, beq_iff_eq, pyBeq_iff_eq va vb,
        pyBeqDict_iff_eq as_ bs, List.cons.injEq, Prod.mk.injEq]

end

instance : DecidableEq PyVal := fun a b =>
  decidable_of_iff (pyBeq a b = true) (pyBeq_iff_eq a b)

namespace PyVal

/-- Python truthiness on the modelled values: `None`, `False`, `0`, `""`,
`[]`, `{}` are falsy. -/
def truthy : PyVal → Bool
  | .pnone => false
  | .pbool b => b
  | .pint n => n != 0
  | .pstr s => !s.isEmpty
  | .plist xs => !xs.isEmpty
  | .pdict kvs => !kvs.isEmpty

/-- `isinstance(v, dict)`. -/
def isDict : PyVal → Bool
  | .pdict _ => true
  | _ => false

/-- `isinstance(v, list)`. -/
def isList : PyVal → Bool
  | .plist _ => true
  | _ => false

/-- `isinstance(v, str)`. -/
def isStr : PyVal → Bool
  | .pstr _ => true
  | _ => false

end PyVal

/-- Dictionary lookup, `d.get(k)` — first binding wins (Python dicts have
unique keys; insertion keeps it that way). -/
def dGet (kvs : List (String × PyVal)) (k : String) : Option PyVal :=
  match kvs.find? (fun kv => kv.1 == k) with
  | some kv => some kv.2
  | none => none

/-- `d.get(k, default)`. -/
def dGetD (kvs : List (String × PyVal)) (k : String) (dflt : PyVal) : PyVal :=
  (dGet kvs k).getD dflt

/-- `k in d` (dictionary key containment). -/
def dHas (kvs : List (String × PyVal)) (k : String) : Bool :=
  (dGet kvs k).isSome

/-! ## `LogSearchIntentParser` (croit_log_tools.py lines 34–295)

The five fixed `PATTERNS` regexes are translated concretely.  They are
applied (with `re.IGNORECASE`) to the already-lowercased working intent, so
case-insensitivity is inert; `.` never matches a newline, so a match of
`A.*?B` exists iff an occurrence of an `A`-alternative is followed, within
the same line, by an occurrence of a `B`-alternative. -/

/-- Try a position predicate at every suffix (regex scan for a match start),
leftmost first. -/
def scanFirst (f : List Char → Option α) : List Char → Option α
  | [] => f []
  | c :: cs =>
    match f (c :: cs) with
    | some a => some a
    | none => scanFirst f cs

/-- Does some suffix satisfy the position predicate? -/
def scanAny (f : List Char → Bool) : List Char → Bool
  | [] => f []
  | c :: cs => f (c :: cs) || scanAny f cs

/-- Possible match ends of the literal `w` at the head of `s`. -/
def litEnds (w : List Char) (s : List Char) : List Nat :=
  if hasPre w s then [w.length] else []

/-- Possible match ends of `object.?storage` at the head of `s`
(`.` = any character except newline). -/
def objStorageEnds (s : List Char) : List Nat :=
  (if hasPre "objectstorage".data s then [13] else []) ++
    (match s.drop 6 with
     | c :: rest => if c != '\n' && hasPre "storage".data rest then [14] else []
     | [] => [])

/-- A match of `first.*?(alt₁|…|altₙ)` exists at this position: some way of
matching the first group here is followed, with no intervening newline, by
one of the second alternatives. -/
def seqAt (fstEnds : List Char → List Nat) (seconds : List (List Char))
    (s : List Char) : Bool :=
  (fstEnds s).any fun e => containsAny seconds ((s.drop e).takeWhile (· != '\n'))

/-- Existence of a match of `(f₁|…)(.*?)(g₁|…)` anywhere in `s`. -/
def seqMatch (fstEnds : List Char → List Nat) (seconds : List (List Char))
    (s : List Char) : Bool :=
  scanAny (seqAt fstEnds seconds) s

/-- A match of `(w₁|…)\s+(u₁|…)` at this position: a first word, at least one
whitespace character, then a second word.  (The second words all begin with a
letter, so consuming the maximal whitespace run is equivalent to the regex's
backtracking.) -/
def wordGapWordAt (firsts seconds : List (List Char)) (s : List Char) : Bool :=
  firsts.any fun w =>
    hasPre w s &&
      (let r := s.drop w.length
       let sp := r.takeWhile isPySpace
       !sp.isEmpty && seconds.any fun u => hasPre u (r.drop sp.length))

/-- `PATTERNS["osd_issues"].regex`:
`(osd|OSD|object.?storage).*?(fail|down|crash|slow|error|flap|timeout)`. -/
def matchesOsdIssues (s : List Char) : Bool :=
  seqMatch (fun r => litEnds "osd".data r ++ objStorageEnds r)
    (["fail", "down", "crash", "slow", "error", "flap", "timeout"].map String.data) s

/-- `PATTERNS["slow_requests"].regex`:
`(slow|blocked|stuck|delayed)\s+(request|operation|op|query|io)`. -/
def matchesSlowRequests (s : List Char) : Bool :=
  scanAny
    (wordGapWordAt (["slow", "blocked", "stuck", "delayed"].map String.data)
      (["request", "operation", "op", "query", "io"].map String.data)) s

/-- `PATTERNS["auth_failures"].regex`:
`(auth|authentication|login|permission).*?(fail|denied|error)`. -/
def matchesAuthFailures (s : List Char) : Bool :=
  seqMatch
    (fun r =>
      litEnds "auth".data r ++ litEnds "authentication".data r ++
        litEnds "login".data r ++ litEnds "permission".data r)
    (["fail", "denied", "error"].map String.data) s

/-- `PATTERNS["network_problems"].regex`:
`(network|connection|timeout|unreachable|heartbeat|msgr)` — bare word
alternation, i.e. substring containment of any alternative. -/
def matchesNetworkProblems (s : List Char) : Bool :=
  containsAny
    (["network", "connection", "timeout", "unreachable", "heartbeat", "msgr"].map
      String.data) s

/-- `PATTERNS["pool_issues"].regex`: `pool.*?(full|create|delete|error)`. -/
def matchesPoolIssues (s : List Char) : Bool :=
  seqMatch (fun r => litEnds "pool".data r)
    (["full", "create", "delete", "error"].map String.data) s

/-- One entry of `LogSearchIntentParser.PATTERNS`. -/
structure TopicPattern where
  fires : List Char → Bool
  services : List String
  levels : List String
  keywords : List String

/-- `LogSearchIntentParser.PATTERNS`, in source (dict-insertion) order. -/
def patternsTable : List TopicPattern :=
  [ { fires := matchesOsdIssues,
      services := ["ceph-osd", "ceph-mon"],
      levels := ["ERROR", "WARN", "FATAL"],
      keywords := ["OSD", "failed", "down", "crashed", "flapping"] },
    { fires := matchesSlowRequests,
      services := ["ceph-osd", "ceph-mon", "ceph-mds"],
      levels := ["WARN", "ERROR"],
      keywords := ["slow request", "blocked", "timeout", "stuck"] },
    { fires := matchesAuthFailures,
      services := ["ceph-mon", "ceph-mgr"],
      levels := ["ERROR", "WARN"],
      keywords := ["authentication", "failed", "denied", "unauthorized"] },
    { fires := matchesNetworkProblems,
      services := ["ceph-mon", "ceph-osd", "ceph-mds", "ceph-mgr"],
      levels := ["ERROR", "WARN"],
      keywords := ["connection", "timeout", "network", "unreachable", "heartbeat"] },
    { fires := matchesPoolIssues,
      services := ["ceph-mon", "ceph-mgr"],
      levels := ["ERROR", "WARN"],
      keywords := ["pool", "full", "quota", "space"] } ]

/-! ### Python sets of strings

Python `set` is modelled as a duplicate-free list; `update` appends the
elements not already present.  Element order inside a Python set is
unspecified, so every theorem below speaks about sets only through
membership and emptiness. -/

/-- `s.add(x)` — append if absent. -/
def sAdd (s : List String) (x : String) : List String :=
  if x ∈ s then s else s ++ [x]

/-- `s.update(xs)`. -/
def sUnion (s : List String) (xs : List String) : List String :=
  xs.foldl sAdd s

/-- Python `==` on sets: same members. -/
def sEq (a b : List String) : Bool :=
  a.all (fun x => b.contains x) && b.all (fun x => a.contains x)

/-- `" ".join(xs)`. -/
def joinSpace (xs : List String) : List Char :=
  (String.intercalate " " xs).data

/-- The `problem_indicators` list (croit_log_tools.py lines 151–161). -/
def problemIndicators : List (List Char) :=
  ["error", "fail", "problem", "issue", "crash", "wrong", "slow", "timeout",
    "stuck"].map String.data

/-- The `performance_indicators` list (lines 174–181). -/
def performanceIndicators : List (List Char) :=
  ["performance", "slow", "fast", "latency", "throughput", "bandwidth"].map
    String.data

/-- Words whose presence marks a kernel/hardware query (line 139–141). -/
def kernelWords : List (List Char) :=
  ["kernel", "hardware", "driver", "system"].map String.data

/-- The explicit-level `elif` chain of `parse` (lines 114–136): clearing
phrases empty the set, the named severities widen it cumulatively, `trace`
clears it. -/
def ladderExplicit (il : List Char) (keywords : List String)
    (levels0 : List String) : List String :=
  if strIn "all level" il || strIn "all log" il || strIn "everything" il then []
  else if strIn "critical" il || strIn "emergency" il then
    sUnion levels0 ["EMERGENCY", "ALERT", "CRITICAL"]
  else if strIn "error" il && !strIn "no error" il then
    sUnion levels0 ["ERROR", "CRITICAL", "ALERT", "EMERGENCY"]
  else if strIn "warning" il || strIn "warn" il then
    sUnion levels0 ["WARNING", "ERROR", "CRITICAL", "ALERT", "EMERGENCY"]
  else if strIn "info" il && !containsSub "info".data (pyLower (joinSpace keywords)) then
    sUnion levels0 ["INFO", "WARNING", "ERROR", "CRITICAL", "ALERT", "EMERGENCY"]
  else if strIn "debug" il then
    sUnion levels0
      ["DEBUG", "INFO", "WARNING", "ERROR", "CRITICAL", "ALERT", "EMERGENCY"]
  else if strIn "trace" il then []
  else levels0

/-- The scope-word list guarding the kernel default (line 146). -/
def kernelSkipWords : List (List Char) :=
  ["all", "everything", "debug", "trace", "info"].map String.data

/-- The kernel-specific default (lines 138–148): with a kernel topic, no
levels yet, and no scope word, default to warning-and-above. -/
def ladderKernel (il : List Char) (levels1 : List String) : List String :=
  if containsAny kernelWords il && levels1.isEmpty && !containsAny kernelSkipWords il then
    sUnion levels1 ["WARNING", "ERROR", "CRITICAL", "ALERT", "EMERGENCY"]
  else levels1

/-- The smart context default (lines 150–171): with no levels and no
problem/scope word, kernel topics get notice-and-above and service topics an
empty filter. -/
def ladderDefaults (il : List Char) (levels2 : List String) : List String :=
  if levels2.isEmpty &&
      !containsAny (problemIndicators ++ ["all", "everything"].map String.data) il then
    if containsAny kernelWords il then
      sUnion levels2 ["NOTICE", "WARNING", "ERROR", "CRITICAL", "ALERT", "EMERGENCY"]
    else []
  else levels2

/-- The performance-indicator widening (lines 173–186): a performance word
re-adds INFO/NOTICE/WARNING/ERROR when the set is empty or exactly
`{ERROR, WARNING}`. -/
def ladderPerf (il : List Char) (levels3 : List String) : List String :=
  if containsAny performanceIndicators il then
    if levels3.isEmpty || sEq levels3 ["ERROR", "WARNING"] then
      sUnion levels3 ["INFO", "NOTICE", "WARNING", "ERROR"]
    else levels3
  else levels3

/-- The severity-resolution ladder of `LogSearchIntentParser.parse`
(croit_log_tools.py lines 111–186): the explicit-level `elif` chain, the
kernel default, the smart default, and the performance-indicator widening,
applied to the pattern-contributed levels `levels0`. -/
def levelLadder (intent : List Char) (keywords : List String)
    (levels0 : List String) : List String :=
  ladderPerf (pyLower intent)
    (ladderDefaults (pyLower intent)
      (ladderKernel (pyLower intent) (ladderExplicit (pyLower intent) keywords levels0)))

/-! ### Ceph service detection and translation
(`CephServiceTranslator`, croit_log_tools.py lines 935–1000) -/

/-- Characters of the regex class `[\w\-\.]`. -/
def isClsChar (c : Char) : Bool := isWordChar c || c == '-' || c == '.'

/-- The prefix alternatives of `\b(osd|mon|mgr|mds|rgw)\.[\w\-\.]+\b`. -/
def cephPrefixWords : List (List Char) :=
  ["osd", "mon", "mgr", "mds", "rgw"].map String.data

/-- Match of `\b(word)\.[\w\-\.]+\b` at the head of `s` (case-insensitive),
where `prevW` says whether the preceding character is a word character (for
the leading `\b`).  The greedy class run is trimmed of trailing non-word
characters so the final `\b` holds.  Returns the capture (the prefix word as
written) and the full match length. -/
def cephMatchAt (prevW : Bool) (s : List Char) : Option (List Char × Nat) :=
  if prevW then none
  else
    cephPrefixWords.findSome? fun w =>
      if hasPre w (pyLower s) then
        let rest := s.drop w.length
        if rest.head? == some '.' then
          let run := (rest.drop 1).takeWhile isClsChar
          let trimmed := (run.reverse.dropWhile (fun c => !isWordChar c)).reverse
          if trimmed.isEmpty then none
          else some (s.take w.length, w.length + 1 + trimmed.length)
        else none
      else none

/-- Worker for `cephFindAll`: `skip > 0` consumes the remaining characters
of the previous match (tracking the word-character flag for the trailing
`\b`), `skip = 0` attempts a match.  (Structural recursion on the text via a
skip counter.) -/
def cephFindAllGo : Nat → Bool → List Char → List (List Char)
  | _, _, [] => []
  | skip + 1, _, c :: cs => cephFindAllGo skip (isWordChar c) cs
  | 0, prevW, c :: cs =>
    match cephMatchAt prevW (c :: cs) with
    | some (cap, len) => cap :: cephFindAllGo (len - 1) (isWordChar c) cs
    | none => cephFindAllGo 0 (isWordChar c) cs

/-- `re.findall(r"\b(osd|mon|mgr|mds|rgw)\.[\w\-\.]+\b", text, re.IGNORECASE)`:
non-overlapping left-to-right scan collecting the group-1 captures. -/
def cephFindAll (prevW : Bool) (s : List Char) : List (List Char) :=
  cephFindAllGo 0 prevW s

/-- Match of `\b{w}\.[\w\-\.]+\b` at the head of `s` for a single prefix word
`w` (case-insensitive): like `cephMatchAt` with a fixed word. -/
def cephMatchWordAt (w : List Char) (prevW : Bool) (s : List Char) : Option Nat :=
  if prevW then none
  else if hasPre (pyLower w) (pyLower s) then
    let rest := s.drop w.length
    if rest.head? == some '.' then
      let run := (rest.drop 1).takeWhile isClsChar
      let trimmed := (run.reverse.dropWhile (fun c => !isWordChar c)).reverse
      if trimmed.isEmpty then none else some (w.length + 1 + trimmed.length)
    else none
  else none

/-- `re.search(rf"\b{m}\.[\w\-\.]+\b", text, re.IGNORECASE)` — the first full
match for a captured prefix word, returned as written in `text`. -/
def cephFirstFull (w : List Char) (prevW : Bool) : List Char → Option (List Char)
  | [] => none
  | c :: cs =>
    match cephMatchWordAt w prevW (c :: cs) with
    | some len => some ((c :: cs).take len)
    | none => cephFirstFull w (isWordChar c) cs

/-- `CephServiceTranslator.detect_ceph_services_in_text`: collect the
group-1 captures, then for each re-search the first full occurrence. -/
def detectCephServices (text : List Char) : List (List Char) :=
  (cephFindAll false text).filterMap fun cap => cephFirstFull cap false text

/-- `CephServiceTranslator.translate_service_name` (case-sensitive anchored
regexes; `osd` requires a numeric instance, the others any nonempty rest). -/
def translateServiceName (s : List Char) : List Char :=
  let rest (pre : String) := s.drop pre.length
  if hasPre "osd.".data s && !(rest "osd.").isEmpty && (rest "osd.").all Char.isDigit then
    "ceph-osd@".data ++ rest "osd." ++ ".service".data
  else if hasPre "mon.".data s && !(rest "mon.").isEmpty then
    "ceph-mon@".data ++ rest "mon." ++ ".service".data
  else if hasPre "mgr.".data s && !(rest "mgr.").isEmpty then
    "ceph-mgr@".data ++ rest "mgr." ++ ".service".data
  else if hasPre "mds.".data s && !(rest "mds.").isEmpty then
    "ceph-mds@".data ++ rest "mds." ++ ".service".data
  else if hasPre "rgw.".data s && !(rest "rgw.").isEmpty then
    "ceph-radosgw@".data ++ rest "rgw." ++ ".service".data
  else s

/-! ### Time-range parsing (`_parse_time_range`, lines 204–295)

Wall-clock time is an explicit integer parameter `now` (epoch seconds);
`datetime.isoformat() + "Z"` is modelled by the (injective, order-preserving)
decimal rendering of the epoch value followed by `"Z"`. -/

/-- A parsed `{"start": …, "end": …}` time-range dictionary (both keys are
always populated by the source; `end` is spelt `endT` because `end` is a Lean
keyword). -/
structure TimeRange where
  start : String
  endT : String
deriving Repr, DecidableEq

/-- Model of `datetime.fromtimestamp(t).isoformat() + "Z"`. -/
def isoZ (t : Int) : String := String.mk (intStr t ++ "Z".data)

/-- Value of a digit run. -/
def natOfDigits (ds : List Char) : Nat :=
  ds.foldl (fun n c => n * 10 + (c.toNat - 48)) 0

/-- The `word_to_num` table of `_parse_time_range` (lines 236–247); the
amount alternation of the `ago` regex tries `\d+` first, then these words. -/
def matchAmountAt (s : List Char) : Option (Nat × Nat) :=
  let run := s.takeWhile Char.isDigit
  if !run.isEmpty then some (natOfDigits run, run.length)
  else
    (([("one", 1), ("two", 2), ("three", 3), ("four", 4), ("five", 5),
        ("six", 6), ("seven", 7), ("eight", 8), ("nine", 9),
        ("ten", 10)] : List (String × Nat)).findSome? fun wv =>
      if hasPre wv.1.data s then some (wv.2, wv.1.data.length) else none)

/-- The unit alternation `(second|minute|hour|day|week)` with the
`timedelta` second counts used by the source. -/
def matchUnitAt (units : List (String × Nat)) (s : List Char) : Option (Nat × Nat) :=
  units.findSome? fun un =>
    if hasPre un.1.data s then some (un.2, un.1.data.length) else none

/-- Match of `(\d+|one|…|ten)\s+(second|minute|hour|day|week)s?\s+ago` at the
head of `s`; returns the `timedelta` in seconds. -/
def matchAgoAt (s : List Char) : Option Nat :=
  match matchAmountAt s with
  | none => none
  | some (v, k) =>
    let r := s.drop k
    let sp := r.takeWhile isPySpace
    if sp.isEmpty then none
    else
      match matchUnitAt
          [("second", 1), ("minute", 60), ("hour", 3600), ("day", 86400),
            ("week", 604800)] (r.drop sp.length) with
      | none => none
      | some (u, k2) =>
        let r3 := (r.drop sp.length).drop k2
        let r4 := if r3.head? == some 's' then r3.drop 1 else r3
        let sp2 := r4.takeWhile isPySpace
        if sp2.isEmpty then none
        else if hasPre "ago".data (r4.drop sp2.length) then some (v * u) else none

/-- Match of `(last|past)\s+(\d+)\s+(minute|hour|day|week)s?` at the head of
`s`; returns the `timedelta` in seconds. -/
def matchLastNAt (s : List Char) : Option Nat :=
  (["last", "past"].map String.data).findSome? fun w =>
    if hasPre w s then
      let r := s.drop w.length
      let sp := r.takeWhile isPySpace
      if sp.isEmpty then none
      else
        let ds := (r.drop sp.length).takeWhile Char.isDigit
        if ds.isEmpty then none
        else
          let r2 := (r.drop sp.length).drop ds.length
          let sp2 := r2.takeWhile isPySpace
          if sp2.isEmpty then none
          else
            match matchUnitAt
                [("minute", 60), ("hour", 3600), ("day", 86400),
                  ("week", 604800)] (r2.drop sp2.length) with
            | none => none
            | some (u, _) => some (natOfDigits ds * u)
    else none

/-- `LogSearchIntentParser._parse_time_range`: fixed phrase table (checked in
dict order), then the `ago` regex, then `last/past N unit`, defaulting to the
last hour. -/
def parseTimeRange (now : Int) (text : List Char) : TimeRange :=
  let tl := pyLower text
  let phrase :=
    ([("last hour", 3600), ("past hour", 3600), ("last day", 86400),
        ("past day", 86400), ("last week", 604800),
        ("recent", 900)] : List (String × Nat)).findSome? fun pd =>
      if containsSub pd.1.data tl then some pd.2 else none
  match phrase with
  | some delta => { start := isoZ (now - delta), endT := isoZ now }
  | none =>
    match scanFirst matchAgoAt tl with
    | some delta => { start := isoZ (now - delta), endT := isoZ now }
    | none =>
      match scanFirst matchLastNAt tl with
      | some delta => { start := isoZ (now - delta), endT := isoZ now }
      | none => { start := isoZ (now - 3600), endT := isoZ now }

/-- A parsed search intent (the dictionary returned by
`LogSearchIntentParser.parse`). -/
structure Intent where
  qtype : String
  services : List String
  levels : List String
  keywords : List String
  timeRange : Option TimeRange
deriving Repr, DecidableEq

/-- The service-translation pass at the top of `parse` (lines 78–89): the
lowercased text with every detected Ceph service reference rewritten to its
lowercased systemd name, paired with the list of translated names. -/
def translateStep (searchIntent : String) : List (List Char) × List Char :=
  (detectCephServices searchIntent.data).foldl
    (fun (acc : List (List Char) × List Char) service =>
      let translated := translateServiceName service
      (acc.1 ++ [translated],
        replaceAll (pyLower service) (pyLower translated) acc.2))
    ([], pyLower searchIntent.data)

/-- The parser's working text: the lowercased, service-translated intent
string that every later containment test runs against. -/
def workingIntent (searchIntent : String) : List Char :=
  (translateStep searchIntent).2

/-- `LogSearchIntentParser.parse` (croit_log_tools.py lines 76–202), with the
wall clock passed explicitly.  Step order as in the source: lowercase, detect
and translate Ceph service references (rewriting the working intent), match
the topic patterns, union their contributions, run the severity ladder,
parse the time range, classify the query type. -/
def parse (now : Int) (searchIntent : String) : Intent :=
  let translatedServices := (translateStep searchIntent).1
  let intent := workingIntent searchIntent
  let matched := patternsTable.filter fun p => p.fires intent
  let services0 := sUnion [] (translatedServices.map fun cs => String.mk cs)
  let services := matched.foldl (fun acc p => sUnion acc p.services) services0
  let levels0 := matched.foldl (fun acc p => sUnion acc p.levels) []
  let keywords := matched.foldl (fun acc p => sUnion acc p.keywords) []
  let levels := levelLadder intent keywords levels0
  let qtype := if strIn "monitor" intent || strIn "stream" intent then "tail" else "query"
  { qtype, services, levels, keywords, timeRange := some (parseTimeRange now intent) }

/-! ## `LogsQLBuilder` (croit_log_tools.py lines 298–336) -/

/-- `" OR ".join(xs)`. -/
def joinOr (xs : List String) : String := String.intercalate " OR " xs

/-- `" AND ".join(xs)`. -/
def joinAnd (xs : List String) : String := String.intercalate " AND " xs

/-- A multi-valued clause: OR-joined and parenthesised when there is more
than one condition, bare when there is exactly one, absent when empty. -/
def groupClause (conds : List String) : List String :=
  match conds with
  | [] => []
  | [c] => [c]
  | cs => ["(" ++ joinOr cs ++ ")"]

/-- The time clause `_time:[{start}, {end}]`. -/
def timeClause (s e : String) : String :=
  "_time:[" ++ s ++ ", " ++ e ++ "]"

/-- `LogsQLBuilder.build`: time filter first, then service, severity and
keyword clauses, AND-joined.  `if start and end` is Python truthiness, i.e.
both strings nonempty. -/
def build (intent : Intent) : String :=
  let timeConds :=
    match intent.timeRange with
    | some tr => if !tr.start.isEmpty && !tr.endT.isEmpty then [timeClause tr.start tr.endT] else []
    | none => []
  let serviceConds := groupClause (intent.services.map fun s => "service:" ++ s)
  let levelConds := groupClause (intent.levels.map fun l => "level:" ++ l)
  let keywordConds := groupClause (intent.keywords.map fun k => "_msg:\"" ++ k ++ "\"")
  let conditions := timeConds ++ serviceConds ++ levelConds ++ keywordConds
  if conditions.isEmpty then "" else joinAnd conditions

/-! ## `token_optimizer.py` — `ResponseCache` (lines 21–119)

Wall-clock `time.time()` is an explicit integer parameter `now` (epoch
seconds; the claims compare only orderings, so the float codomain is modelled
over `Int`).  The `hashlib.md5(key_data).hexdigest()` key derivation is
modelled as the identity on `key_data` (an injective stand-in for an
injective-in-practice hash); `json.dumps(params, sort_keys=True, …)` is
modelled by passing the canonical parameter rendering as a `String`, `None`
params as `Option.none`. -/

/-- Python `str.upper()` (ASCII). -/
def pyUpper (s : String) : String := String.mk (s.data.map Char.toUpper)

/-- Association-list lookup (Python dict read; keys are unique). -/
def alGet (m : List (String × α)) (k : String) : Option α :=
  match m.find? (fun kv => kv.1 == k) with
  | some kv => some kv.2
  | none => none

/-- Python dict assignment `m[k] = v`: overwrite in place, or append. -/
def alSet (m : List (String × α)) (k : String) (v : α) : List (String × α) :=
  if (m.find? (fun kv => kv.1 == k)).isSome then
    m.map fun kv => if kv.1 == k then (k, v) else kv
  else m ++ [(k, v)]

/-- Python `del m[k]`. -/
def alDel (m : List (String × α)) (k : String) : List (String × α) :=
  m.filter fun kv => kv.1 != k

/-- A `CacheEntry` (token_optimizer.py lines 21–31). -/
structure CacheEntry where
  data : PyVal
  timestamp : Int
  ttl : Int
deriving Repr, DecidableEq

/-- `CacheEntry.is_expired`: `time.time() > (self.timestamp + self.ttl)`. -/
def CacheEntry.isExpired (e : CacheEntry) (now : Int) : Bool :=
  now > e.timestamp + e.ttl

/-- `ResponseCache` state. -/
structure ResponseCache where
  maxSize : Nat
  defaultTtl : Int
  cache : List (String × CacheEntry)
  accessTimes : List (String × Int)
deriving Repr

/-- `ResponseCache._generate_key` (md5 modelled as identity, see above). -/
def generateKey (url method : String) (params : Option String) : String :=
  let base := pyUpper method ++ ":" ++ url
  match params with
  | some p => base ++ ":" ++ p
  | none => base

/-- `ResponseCache.get`: miss on absent key; lazily purge and miss on an
expired entry; otherwise refresh the access time and hit. -/
def ResponseCache.get (c : ResponseCache) (now : Int) (url method : String)
    (params : Option String) : Option PyVal × ResponseCache :=
  let key := generateKey url method params
  match alGet c.cache key with
  | none => (none, c)
  | some entry =>
    if entry.isExpired now then
      (none,
        { c with cache := alDel c.cache key, accessTimes := alDel c.accessTimes key })
    else (some entry.data, { c with accessTimes := alSet c.accessTimes key now })

/-- `ResponseCache._evict_lru`: drop the key with the minimal access time
(Python `min` keeps the first minimum in iteration order). -/
def ResponseCache.evictLru (c : ResponseCache) : ResponseCache :=
  match c.accessTimes with
  | [] => c
  | kv0 :: rest =>
    let lru := rest.foldl (fun best kv => if kv.2 < best.2 then kv else best) kv0
    { c with cache := alDel c.cache lru.1, accessTimes := alDel c.accessTimes lru.1 }

/-- `ResponseCache.set`: endpoint-shaped TTL defaulting, LRU eviction at
capacity, then insertion. -/
def ResponseCache.set (c : ResponseCache) (now : Int) (url method : String)
    (data : PyVal) (params : Option String) (ttl : Option Int) : ResponseCache :=
  let key := generateKey url method params
  let t :=
    match ttl with
    | some t => t
    | none =>
      let ul := pyLower url.data
      if strIn "/status" ul || strIn "/health" ul then 60
      else if strIn "/stats" ul || strIn "/metrics" ul then 180
      else if strIn "/list" ul || strIn "/all" ul then 600
      else c.defaultTtl
  let c1 := if c.cache.length ≥ c.maxSize then c.evictLru else c
  { c1 with
    cache := alSet c1.cache key ⟨data, now, t⟩,
    accessTimes := alSet c1.accessTimes key now }

/-! ## `TokenOptimizer.truncate_response` (token_optimizer.py lines 187–233) -/

/-- The truncation message f-string. -/
def truncMessage (orig m : Nat) : String :=
  "Response truncated from " ++ toString orig ++ " to " ++ toString m ++
    " items to save tokens. Use pagination (limit/offset) or filters to get specific data."

/-- The truncated-response wrapper dictionary (lines 222–233). -/
def truncWrapper (kept : List PyVal) (orig m : Nat) : PyVal :=
  .pdict
    [("data", .plist kept),
      ("_truncation_metadata",
        .pdict
          [("truncated", .pbool true),
            ("original_count", .pint orig),
            ("returned_count", .pint m),
            ("truncation_message", .pstr (truncMessage orig m))])]

/-- `TokenOptimizer.truncate_response`: lists longer than `max_items` are cut
to a resource-dependent cap and wrapped with `_truncation_metadata`;
everything else passes through. -/
def truncateResponse (data : PyVal) (url : String) (maxItems : Nat) : PyVal :=
  match data with
  | .plist l =>
    let originalCount := l.length
    if originalCount ≤ maxItems then .plist l
    else
      let ul := pyLower url.data
      let m :=
        if strIn "/log" ul || strIn "/audit" ul then min 100 originalCount
        else if strIn "/stats" ul then min 75 originalCount
        else if strIn "/services" ul || strIn "/servers" ul || strIn "/osds" ul then
          min 25 originalCount
        else maxItems
      truncWrapper (l.take m) originalCount m
  | d => d

/-! ## `TokenOptimizer.apply_filters` (token_optimizer.py lines 327–463)

The Python `re` engine, applied here to arbitrary user-supplied patterns, is
an abstract parameter: a compiler from a pattern to `none` (an `re.error`)
or a case-insensitive search predicate.  Every theorem about filtering is
quantified over this oracle. -/

/-- An abstract regex engine: pattern ↦ (`none` = `re.error`) or a search
predicate over subject strings. -/
def Rgx : Type := String → Option (String → Bool)

/-- Python `str(value)` as fed to `re.search` (the exact rendering of
non-string values only reaches the abstract regex oracle, so only its
existence matters; `\x7b`/`\x7d` are literal braces). -/
def pyStr : PyVal → String
  | .pnone => "None"
  | .pbool true => "True"
  | .pbool false => "False"
  | .pint n => toString n
  | .pstr s => s
  | .plist _ => "[...]"
  | .pdict _ => "\x7b...\x7d"

/-- Python `float(x)` over the modelled (integer) numeric domain: numbers and
numeric strings convert, everything else raises (`none`). -/
def pyFloatOfVal : PyVal → Option Int
  | .pint n => some n
  | .pbool b => some (if b then 1 else 0)
  | .pstr s =>
    let t := pyStrip s.data
    let core := match t with
      | '-' :: rest => if rest.isEmpty then none else some (true, rest)
      | '+' :: rest => if rest.isEmpty then none else some (false, rest)
      | rest => if rest.isEmpty then none else some (false, rest)
    match core with
    | some (neg, ds) =>
      if ds.all Char.isDigit then
        some (if neg then -(natOfDigits ds : Int) else (natOfDigits ds : Int))
      else none
    | none => none
  | _ => none

/-- `float` applied to a raw string (the right-hand side of a comparison). -/
def pyFloatOfStr (s : String) : Option Int := pyFloatOfVal (.pstr s)

/-- `TokenOptimizer._numeric_comparison`: leading operator, then `float`
conversion of both sides; any conversion failure yields `False`. -/
def numericComparison (value : PyVal) (comparison : String) : Bool :=
  let cs := comparison.data
  let both (k : Nat) (f : Int → Int → Bool) : Bool :=
    match pyFloatOfStr (comparison.drop k), pyFloatOfVal value with
    | some num, some v => f v num
    | _, _ => false
  if hasPre ">=".data cs then both 2 (· ≥ ·)
  else if hasPre "<=".data cs then both 2 (· ≤ ·)
  else if hasPre "!=".data cs then both 2 (· ≠ ·)
  else if hasPre ">".data cs then both 1 (· > ·)
  else if hasPre "<".data cs then both 1 (· < ·)
  else if hasPre "=".data cs then both 1 (· = ·)
  else both 0 (· = ·)

mutual

/-- `search_in_value` inside `_text_search_in_item`: case-insensitive
containment in strings, recursing through dict values and list elements. -/
def textSearchVal (needle : List Char) : PyVal → Bool
  | .pstr s => containsSub needle (pyLower s.data)
  | .pdict kvs => textSearchKvs needle kvs
  | .plist xs => textSearchList needle xs
  | _ => false

/-- Search each value of a dictionary. -/
def textSearchKvs (needle : List Char) : List (String × PyVal) → Bool
  | [] => false
  | kv :: rest => textSearchVal needle kv.2 || textSearchKvs needle rest

/-- Search each element of a list. -/
def textSearchList (needle : List Char) : List PyVal → Bool
  | [] => false
  | v :: rest => textSearchVal needle v || textSearchList needle rest

end

/-- `TokenOptimizer._text_search_in_item`. -/
def textSearchInItem (item : List (String × PyVal)) (searchText : String) : Bool :=
  textSearchKvs (pyLower searchText.data) item

/-- The operator sniff list of `_item_matches_filters` (line 403). -/
def numOps : List String := [">=", "<=", "!=", ">", "<", "="]

/-- `TokenOptimizer._item_matches_filters`: all filter entries must hold;
`_text` is a recursive full-text search, `_has` a key-existence check, a
string value starting with `~` a regex search (an invalid pattern filters the
item out), a string whose first two characters contain an operator a numeric
comparison, a list value a membership test, and anything else an equality
test.  (A non-string `_text` value would raise in the source and is excluded
by the well-formedness hypothesis of the theorems that use this.) -/
def itemMatchesFilters (rgx : Rgx) (item : List (String × PyVal))
    (filters : List (String × PyVal)) : Bool :=
  filters.all fun kv =>
    if kv.1 == "_text" then
      match kv.2 with
      | .pstr t => textSearchInItem item t
      | _ => false
    else if kv.1 == "_has" then
      let fields := match kv.2 with | .plist xs => xs | x => [x]
      fields.all fun f =>
        match f with
        | .pstr s => dHas item s
        | _ => false
    else
      match dGet item kv.1 with
      | none => false
      | some itemValue =>
        match kv.2 with
        | .pstr s =>
          if s.data.head? == some '~' then
            match rgx (s.drop 1) with
            | some f => f (pyStr itemValue)
            | none => false
          else if numOps.any (fun op => containsSub op.data (s.data.take 2)) then
            numericComparison itemValue s
          else pyBeq itemValue (.pstr s)
        | .plist xs => xs.any fun x => pyBeq itemValue x
        | other => pyBeq itemValue other

/-- The per-item keep predicate of `apply_filters`: non-dict items are
skipped (`continue`), dict items are kept iff they match all filters. -/
def keepItem (rgx : Rgx) (filters : List (String × PyVal)) (it : PyVal) : Bool :=
  match it with
  | .pdict kvs => itemMatchesFilters rgx kvs filters
  | _ => false

/-- `TokenOptimizer.apply_filters` (lines 327–366): falsy filters or falsy
data pass through; otherwise filter (a single object is wrapped into a
one-element list), returning `filtered[0]` for a single object that
survived, else the filtered list. -/
def applyFilters (rgx : Rgx) (data : PyVal) (filters : List (String × PyVal)) : PyVal :=
  if filters.isEmpty || !data.truthy then data
  else
    let isSingle := !data.isList
    let items := match data with | .plist xs => xs | d => [d]
    let filtered := items.filter (keepItem rgx filters)
    if isSingle then
      match filtered with
      | f :: _ => f
      | [] => .plist []
    else .plist filtered

/-! ## `TokenOptimizer.project_fields` (token_optimizer.py lines 788–828) -/

/-- `project_object`: keep only the requested fields, in request order. -/
def projectObject (fields : List String) : PyVal → PyVal
  | .pdict kvs =>
    .pdict (fields.filterMap fun f =>
      match dGet kvs f with
      | some v => some (f, v)
      | none => none)
  | v => v

/-- `TokenOptimizer.project_fields`: project a list elementwise, a
`data`-wrapper through its `data` list (annotating `_field_projection`), a
bare object directly; falsy `fields` is the identity. -/
def projectFields (data : PyVal) (fields : List String) : PyVal :=
  if fields.isEmpty then data
  else
    match data with
    | .plist xs => .plist (xs.map (projectObject fields))
    | .pdict kvs =>
      match dGet kvs "data" with
      | some (.plist ds) =>
        .pdict
          ((kvs.map fun kv =>
              if kv.1 == "data" then ("data", PyVal.plist (ds.map (projectObject fields)))
              else kv) ++
            [("_field_projection",
              .pstr ("Projected to " ++ toString fields.length ++ " fields: " ++
                String.intercalate ", " fields))])
      | _ => projectObject fields (.pdict kvs)
    | d => d

/-! ## `TokenOptimizer.create_smart_summary` (token_optimizer.py lines 830–962)

The md5-of-url-and-time response id is an explicit `responseId` parameter;
the write into the process-wide `_last_responses` store is a side effect with
no bearing on the returned value and is not part of the value model. -/

/-- Lexicographic (code-point) order on strings, as Python compares them. -/
def charsLe : List Char → List Char → Bool
  | [], _ => true
  | _ :: _, [] => false
  | a :: as_, b :: bs => if a == b then charsLe as_ bs else decide (a < b)

/-- Python `sorted` on strings (insertion sort; stability is irrelevant for
the duplicate-free inputs it receives here). -/
def insSorted (x : String) : List String → List String
  | [] => [x]
  | y :: ys => if charsLe x.data y.data then x :: y :: ys else y :: insSorted x ys

/-- Sort a list of strings ascending. -/
def sortStrs (xs : List String) : List String := xs.foldr insSorted []

/-- Counter increment keyed by a Python value (dict insertion order:
first-occurrence order). -/
def bumpCount (m : List (PyVal × Nat)) (k : PyVal) : List (PyVal × Nat) :=
  if (m.find? fun kv => pyBeq kv.1 k).isSome then
    m.map fun kv => if pyBeq kv.1 k then (kv.1, kv.2 + 1) else kv
  else m ++ [(k, 1)]

/-- `item.get("status", "unknown")` for the status-count loop (the source
would raise on a non-dict item here; such items do not occur on the paths
under verification and are given the default). -/
def statusOf (item : PyVal) : PyVal :=
  match item with
  | .pdict kvs => dGetD kvs "status" (.pstr "unknown")
  | _ => .pstr "unknown"

/-- The `has_error` test of the error-detection loop (lines 925–935):
status in error/failed/down, or truthy `error` / `has_error`, or
`health == "ERROR"`. -/
def itemHasError (item : PyVal) : Bool :=
  match item with
  | .pdict kvs =>
    (["error", "failed", "down"].any fun s =>
        pyBeq ((dGet kvs "status").getD .pnone) (.pstr s)) ||
      ((dGet kvs "error").getD .pnone).truthy ||
      ((dGet kvs "has_error").getD .pnone).truthy ||
      pyBeq ((dGet kvs "health").getD .pnone) (.pstr "ERROR")
  | _ => false

/-- Render a status-count table as a `PyVal` dict (dict keys in our value
model are strings; the `str` rendering is injective on the string statuses
that occur). -/
def countsToDict (m : List (PyVal × Nat)) : PyVal :=
  .pdict (m.map fun kv => (pyStr kv.1, PyVal.pint kv.2))

/-- The `_hint` drill-down message of `create_smart_summary`
(`\x27` is a literal apostrophe). -/
def smartHint (totalCount : Nat) (responseId : String) : String :=
  "💡 This is a summary of " ++ toString totalCount ++ " items. " ++
    "Use search_last_result(response_id=\x27" ++ responseId ++
    "\x27) to filter/search the full data. " ++
    "Available filters: field=value, field__contains=text, field__gt=number"

/-- `TokenOptimizer.create_smart_summary`: single objects pass through
annotated, lists of at most 5 items are shown whole, larger lists produce the
status/error/sample/field summary with a drill-down reference. -/
def createSmartSummary (data : PyVal) (responseId : String) : PyVal :=
  match data with
  | .pdict kvs =>
    if ["error", "errors", "failed", "status"].any (fun k => dHas kvs k) then
      .pdict
        [("_summary", .pstr "Single object response (error detected)"),
          ("_response_id", .pstr responseId),
          ("data", .pdict kvs),
          ("_hint", .pstr "This is the complete response (single object with error)")]
    else
      .pdict
        [("_summary", .pstr "Single object response"),
          ("_response_id", .pstr responseId),
          ("data", .pdict kvs),
          ("_hint", .pstr "This is the complete response (single object)")]
  | .plist xs =>
    let totalCount := xs.length
    if totalCount ≤ 5 then
      .pdict
        [("_summary",
            .pstr ("Small dataset (" ++ toString totalCount ++ " items) - showing all")),
          ("_response_id", .pstr responseId),
          ("items", .plist xs),
          ("_hint", .pstr "Complete data shown (≤5 items)")]
    else
      let base : List (String × PyVal) :=
        [("_summary", .pstr ("Found " ++ toString totalCount ++ " items")),
          ("_response_id", .pstr responseId),
          ("total_count", .pint totalCount)]
      let mid :=
        match xs.head? with
        | some (.pdict firstKvs) =>
          let statusPart :=
            if dHas firstKvs "status" then
              let statusCounts := xs.foldl (fun m it => bumpCount m (statusOf it)) []
              let criticalStatuses := xs.filter fun it =>
                ["error", "failed", "down", "critical"].any fun s =>
                  pyBeq (statusOf it) (.pstr s)
              [("by_status", countsToDict statusCounts)] ++
                (if !criticalStatuses.isEmpty then
                  [("critical_items", PyVal.plist (criticalStatuses.take 5)),
                    ("critical_count", PyVal.pint criticalStatuses.length)]
                else [])
            else []
          let errorItems := xs.filter itemHasError
          let errorPart :=
            if !errorItems.isEmpty then
              [("errors_found", PyVal.pint errorItems.length),
                ("error_samples", PyVal.plist (errorItems.take 3))]
            else []
          let allKeys :=
            (xs.take 10).foldl
              (fun acc it =>
                match it with
                | .pdict ikvs => ikvs.foldl (fun a kv => sAdd a kv.1) acc
                | _ => acc) []
          statusPart ++ errorPart ++
            [("sample_items", PyVal.plist (xs.take 3)),
              ("available_fields",
                PyVal.plist ((sortStrs allKeys).map PyVal.pstr))]
        | _ => [("sample_items", PyVal.plist (xs.take 5))]
      .pdict (base ++ mid ++ [("_hint", .pstr (smartHint totalCount responseId))])
  | prim => prim

/-! ## `optimize_api_response` (token_optimizer.py lines 1007–1069) -/

/-- Optimization is explicitly disabled when truthy params carry a truthy
`no_optimize` key. -/
def noOptimize (params : Option (List (String × PyVal))) : Bool :=
  match params with
  | some ps => (PyVal.pdict ps).truthy && (dGetD ps "no_optimize" .pnone).truthy
  | none => false

/-- `optimize_api_response`: the decision ladder — disabled ⇒ unchanged;
requested fields ⇒ project (summarising only above 100 items); then by item
count: ≤ 5 unchanged, 6–50 truncated at 25, > 50 smart summary; non-list
data unchanged.  `requestedFields = []` models a falsy (`None` or empty)
`requested_fields` argument, and `url`/`method` mirror the source signature
(`method` is not consulted by the source either). -/
def optimizeApiResponse (url method : String) (responseData : PyVal)
    (params : Option (List (String × PyVal))) (requestedFields : List String)
    (responseId : String) : PyVal :=
  let _ := method
  if noOptimize params then responseData
  else if !requestedFields.isEmpty then
    let projected := projectFields responseData requestedFields
    match projected with
    | .plist xs =>
      if xs.length > 100 then createSmartSummary projected responseId else projected
    | p => p
  else
    let itemCount : Option Nat :=
      match responseData with
      | .plist xs => some xs.length
      | .pdict kvs =>
        match dGet kvs "data" with
        | some (.plist ds) => some ds.length
        | _ => none
      | _ => none
    match itemCount with
    | some n =>
      if n ≤ 5 then responseData
      else if n ≤ 50 then truncateResponse responseData url 25
      else createSmartSummary responseData responseId
    | none => responseData

/-! ## `_extract_logs_from_zip` (croit_log_tools.py lines 2011–2056)

The `json.loads` line parser is an abstract parameter returning either a
value or the exception's message string.  A decoded archive is modelled as
the list of its files' text contents (a corrupt archive, which the source
maps to `[]` before reaching any line, is outside this value model). -/

/-- Abstract `json.loads`: a parsed value or the `JSONDecodeError` message. -/
def JsonParser : Type := String → Except String PyVal

/-- The raw-text record appended for a line whose JSON parsing fails. -/
def taggedRecord (line : List Char) (err : String) (lineNum : Nat) : PyVal :=
  .pdict
    [("raw_message", .pstr (String.mk line)),
      ("parse_error", .pstr err),
      ("line_number", .pint lineNum)]

/-- The lines of one archive file: `content.strip().split("\n")`. -/
def fileLines (content : List Char) : List (List Char) :=
  splitNl (pyStrip content)

/-- Extraction for one archive file: every line that is nonblank after
stripping yields exactly one record — the parsed value, or the tagged
raw-text record. -/
def extractFileLogs (jp : JsonParser) (content : List Char) : List PyVal :=
  (fileLines content).enum.filterMap fun il =>
    if (pyStrip il.2).isEmpty then none
    else
      match jp (String.mk il.2) with
      | .ok v => some v
      | .error e => some (taggedRecord il.2 e il.1)

/-- `_extract_logs_from_zip` over a decoded archive. -/
def extractLogsFromZip (jp : JsonParser) (files : List (List Char)) : List PyVal :=
  files.flatMap (extractFileLogs jp)

/-! ## The log analysis pipeline behind `search_logs`
(croit_log_tools.py lines 369–464, 833–932, 1714–2008)

Log records are `PyVal` dictionaries.  Field reads follow the source's
`log.get(...)` calls; a handful of record shapes (a non-dict list element, a
non-string `message`, a non-integer `PRIORITY`) would raise uncaught
exceptions in the source — they are given the read's default here and are
never produced by the claims' inputs.  `datetime.fromisoformat` on a log's
`timestamp` string is an abstract parameter `isoMin` returning the record's
epoch minute (`none` = unparseable, the source's caught `ValueError`);
minute/hour bucket keys are their integer indices, standing in for the
injective `strftime` renderings. -/

/-- `log.get(k, dflt)` on a record. -/
def logGetD (log : PyVal) (k : String) (dflt : PyVal) : PyVal :=
  match log with
  | .pdict kvs => dGetD kvs k dflt
  | _ => dflt

/-- Does `log.get("level")` lie in the given name list? -/
def logLevelIn (log : PyVal) (lvls : List String) : Bool :=
  lvls.any fun s => pyBeq (logGetD log "level" .pnone) (.pstr s)

/-- The string characters of `log.get(k, "")`. -/
def msgStrOf (log : PyVal) (k : String) : List Char :=
  match logGetD log k (.pstr "") with
  | .pstr s => s.data
  | _ => []

/-- Lower-case hexadecimal digit (the character class `[0-9a-f]`). -/
def isHexLowChar (c : Char) : Bool :=
  c.isDigit || (decide ('a' ≤ c) && decide (c ≤ 'f'))

/-- Worker for the digit-run substitution: `skip > 0` consumes the remaining
characters of a replaced run (maintaining the word-character flag),
`skip = 0` attempts a replacement.  (Structural recursion via a skip
counter.) -/
def digitSubGo : Nat → Bool → List Char → List Char
  | _, _, [] => []
  | skip + 1, _, c :: cs => digitSubGo skip (isWordChar c) cs
  | 0, prevW, c :: cs =>
    let run := (c :: cs).takeWhile Char.isDigit
    let boundaryAfter :=
      match ((c :: cs).drop run.length).head? with
      | some d => !isWordChar d
      | none => true
    if c.isDigit && !prevW && boundaryAfter then
      'N' :: digitSubGo (run.length - 1) (isWordChar c) cs
    else c :: digitSubGo 0 (isWordChar c) cs

/-- Worker for the hex-run substitution, same skip-counter scheme. -/
def hexSubGo : Nat → Bool → List Char → List Char
  | _, _, [] => []
  | skip + 1, _, c :: cs => hexSubGo skip (isWordChar c) cs
  | 0, prevW, c :: cs =>
    let run := (c :: cs).takeWhile isHexLowChar
    let boundaryAfter :=
      match ((c :: cs).drop run.length).head? with
      | some d => !isWordChar d
      | none => true
    if isHexLowChar c && !prevW && decide (8 ≤ run.length) && boundaryAfter then
      'H' :: 'E' :: 'X' :: hexSubGo (run.length - 1) (isWordChar c) cs
    else c :: hexSubGo 0 (isWordChar c) cs

/-- The error-message normalisation of `_analyze_patterns` (lines 846–847):
`re.sub(r"\b\d+\b", "N", ·)` — every maximal digit run with word boundaries
on both sides becomes `N` — then `re.sub(r"\b[0-9a-f]{8,}\b", "HEX", ·)` —
every maximal hex run of length ≥ 8 with word boundaries becomes `HEX` (a
boundary-violating run is left whole: no strict sub-run can match, its
neighbours being hex characters) — truncated to 100 characters. -/
def normalizeMsg (msg : List Char) : List Char :=
  (hexSubGo 0 false (digitSubGo 0 false msg)).take 100

/-- Append to a `defaultdict(list)` keyed by normalised messages. -/
def clBump (m : List (List Char × List PyVal)) (k : List Char) (v : PyVal) :
    List (List Char × List PyVal) :=
  if (m.find? fun kv => kv.1 == k).isSome then
    m.map fun kv => if kv.1 == k then (kv.1, kv.2 ++ [v]) else kv
  else m ++ [(k, [v])]

/-- Append to a `defaultdict(list)` keyed by integer buckets. -/
def ibBump (m : List (Int × List PyVal)) (k : Int) (v : PyVal) :
    List (Int × List PyVal) :=
  if (m.find? fun kv => kv.1 == k).isSome then
    m.map fun kv => if kv.1 == k then (kv.1, kv.2 ++ [v]) else kv
  else m ++ [(k, [v])]

/-- Python `list(set(xs))` over values, in first-occurrence order (set order
is unspecified; nothing below depends on it). -/
def dedupVals (xs : List PyVal) : List PyVal :=
  xs.foldl (fun acc x => if acc.any (fun y => pyBeq y x) then acc else acc ++ [x]) []

/-- The minute bucket of a log record for burst detection: the `timestamp`
key must be present and a string, and parse (a non-string raises the caught
`AttributeError`, i.e. is skipped). -/
def minuteBucketOf (isoMin : String → Option Int) (log : PyVal) : Option Int :=
  match log with
  | .pdict kvs =>
    match dGet kvs "timestamp" with
    | some (.pstr s) => isoMin s
    | some _ => none
    | none => none
  | _ => none

/-- `CroitLogSearchClient._analyze_patterns` (lines 833–893): cluster
ERROR/FATAL records by normalised message (clusters of ≥ 2 become
`repeated_error` patterns), then bucket records by minute (buckets of > 50
become `burst` patterns). -/
def analyzePatterns (isoMin : String → Option Int) (logs : List PyVal) :
    List PyVal :=
  if logs.isEmpty then []
  else
    let clusters :=
      logs.foldl
        (fun m log =>
          if logLevelIn log ["ERROR", "FATAL"] then
            clBump m (normalizeMsg (msgStrOf log "message")) log
          else m) []
    let repeated :=
      (clusters.filter fun kv => 2 ≤ kv.2.length).map fun kv =>
        PyVal.pdict
          [("type", .pstr "repeated_error"),
            ("pattern", .pstr (String.mk (kv.1.take 50))),
            ("count", .pint kv.2.length),
            ("hosts",
              .plist (dedupVals (kv.2.map fun l => logGetD l "host" (.pstr "")))),
            ("services",
              .plist (dedupVals (kv.2.map fun l => logGetD l "service" (.pstr ""))))]
    let buckets :=
      logs.foldl
        (fun m log =>
          match minuteBucketOf isoMin log with
          | some b => ibBump m b log
          | none => m) []
    let bursts :=
      (buckets.filter fun kv => 50 < kv.2.length).map fun kv =>
        PyVal.pdict
          [("type", .pstr "burst"),
            ("time", .pstr (String.mk (intStr kv.1))),
            ("count", .pint kv.2.length),
            ("error_count",
              .pint (kv.2.filter fun l => logLevelIn l ["ERROR", "FATAL"]).length)]
    repeated ++ bursts

/-- The `insights` dictionary of `_generate_insights`. -/
structure Insights where
  summary : String
  severity : String
  recommendations : List String
deriving Repr, DecidableEq

/-- Count of records whose `level` equals the given name. -/
def countLevel (logs : List PyVal) (lvl : String) : Nat :=
  (logs.filter fun l => pyBeq (logGetD l "level" .pnone) (.pstr lvl)).length

/-- The recommendation generated from one pattern (lines 922–930). -/
def patternRec (p : PyVal) : Option String :=
  match p with
  | .pdict kvs =>
    if pyBeq (dGetD kvs "type" .pnone) (.pstr "repeated_error") then
      some ("Investigate repeated error on " ++
        toString (match dGetD kvs "hosts" (.plist []) with
          | .plist hs => hs.length
          | _ => 0) ++ " hosts")
    else if pyBeq (dGetD kvs "type" .pnone) (.pstr "burst") then
      some ("Check event at " ++ pyStr (dGetD kvs "time" (.pstr "")) ++ " (" ++
        pyStr (dGetD kvs "count" (.pint 0)) ++ " logs)")
    else none
  | _ => none

/-- `CroitLogSearchClient._generate_insights` (lines 895–932): the empty-log
message, else the FATAL/ERROR severity ladder and recommendations from the
first three patterns. -/
def generateInsights (logs : List PyVal) (patterns : List PyVal) : Insights :=
  if logs.isEmpty then
    { summary := "No logs found matching the search criteria",
      severity := "normal", recommendations := [] }
  else
    let total := logs.length
    let errors := countLevel logs "ERROR"
    let fatals := countLevel logs "FATAL"
    let sevSum :=
      if 0 < fatals then
        ("critical", "CRITICAL: " ++ toString fatals ++ " fatal errors found")
      else if 20 < errors then
        ("high", "HIGH: " ++ toString errors ++ " errors detected")
      else if 5 < errors then
        ("medium", "MEDIUM: " ++ toString errors ++ " errors found")
      else ("normal", "Analyzed " ++ toString total ++ " logs")
    { summary := sevSum.2, severity := sevSum.1,
      recommendations := (patterns.take 3).filterMap patternRec }

/-! ### `LogSummaryEngine` (croit_log_tools.py lines 1714–2008) -/

/-- `priority_levels.get(priority, f"LEVEL_{priority}")`. -/
def priorityNameOf (v : PyVal) : String :=
  match v with
  | .pint 0 => "EMERGENCY"
  | .pint 1 => "ALERT"
  | .pint 2 => "CRITICAL"
  | .pint 3 => "ERROR"
  | .pint 4 => "WARNING"
  | .pint 5 => "NOTICE"
  | .pint 6 => "INFO"
  | .pint 7 => "DEBUG"
  | other => "LEVEL_" ++ pyStr other

/-- Counter increment with string keys. -/
def strBump (m : List (String × Nat)) (k : String) : List (String × Nat) :=
  if (m.find? fun kv => kv.1 == k).isSome then
    m.map fun kv => if kv.1 == k then (kv.1, kv.2 + 1) else kv
  else m ++ [(k, 1)]

/-- Counter increment with integer keys. -/
def intBump (m : List (Int × Nat)) (k : Int) : List (Int × Nat) :=
  if (m.find? fun kv => kv.1 == k).isSome then
    m.map fun kv => if kv.1 == k then (kv.1, kv.2 + 1) else kv
  else m ++ [(k, 1)]

/-- Stable insertion into a sorted list: place `x` before the first `y` with
`le x y` (Python sorts are stable; `foldr insBy` preserves the original order
of ties). -/
def insBy (le : α → α → Bool) (x : α) : List α → List α
  | [] => [x]
  | y :: ys => if le x y then x :: y :: ys else y :: insBy le x ys

/-- Stable sort by the given relation. -/
def sortBy (le : α → α → Bool) (xs : List α) : List α := xs.foldr (insBy le) []

/-- `LogSummaryEngine._analyze_priorities`: counts by priority name, in
first-occurrence order. -/
def analyzePriorities (logs : List PyVal) : List (String × Nat) :=
  logs.foldl (fun m log => strBump m (priorityNameOf (logGetD log "PRIORITY" (.pint 6)))) []

/-- `LogSummaryEngine._analyze_services`: counts of
`log.get("_SYSTEMD_UNIT", log.get("SYSLOG_IDENTIFIER", "unknown"))`, top 10
by count (`Counter.most_common`: count descending, insertion order on ties).
Keys are rendered with `str`, injective on the string unit names that
occur. -/
def analyzeServices (logs : List PyVal) : List (String × Nat) :=
  let counts :=
    logs.foldl
      (fun m log =>
        bumpCount m (logGetD log "_SYSTEMD_UNIT" (logGetD log "SYSLOG_IDENTIFIER" (.pstr "unknown"))))
      []
  ((sortBy (fun a b => b.2 ≤ a.2) counts).take 10).map fun kv => (pyStr kv.1, kv.2)

/-- One entry of the `critical_logs` list of `_extract_critical_events`.
Python object identity of the carried record (`id(log)`, used for
de-duplication in `search_logs`) is modelled by the record's position
`logIdx` in the source list. -/
structure CritEvent where
  logIdx : Nat
  log : PyVal
  score : Int
  timestampV : PyVal
  serviceV : PyVal
  priorityName : String
  messagePreview : String
deriving Repr, DecidableEq

/-- `LogSummaryEngine.critical_keywords`. -/
def critKeywords : List String :=
  ["failed", "error", "crash", "panic", "fatal", "abort", "exception",
    "timeout", "unreachable", "down", "offline", "corruption", "loss"]

/-- Score and describe one record (lines 1813–1844): priority × 10, − 20 per
critical keyword in the lowercased message, − 15 for an OSD-failure-shaped
message. -/
def mkCritEvent (il : Nat × PyVal) : CritEvent :=
  let log := il.2
  let priorityV := logGetD log "PRIORITY" (.pint 6)
  let priorityInt : Int :=
    match priorityV with
    | .pint n => n
    | _ => 6
  let message := pyLower (msgStrOf log "MESSAGE")
  let kwHits := (critKeywords.filter fun k => containsSub k.data message).length
  let osdPenalty : Int :=
    if strIn "osd" message &&
        (["failed", "down", "crash"].any fun w => strIn w message) then 15
    else 0
  let msgOrig := msgStrOf log "MESSAGE"
  { logIdx := il.1
    log := log
    score := priorityInt * 10 - 20 * kwHits - osdPenalty
    timestampV := logGetD log "__REALTIME_TIMESTAMP" (.pstr "")
    serviceV := logGetD log "_SYSTEMD_UNIT" (.pstr "unknown")
    priorityName := priorityNameOf priorityV
    messagePreview :=
      if 100 < msgOrig.length then String.mk (msgOrig.take 100) ++ "..."
      else String.mk msgOrig }

/-- `LogSummaryEngine._extract_critical_events`: score every record, sort
stably by ascending score, keep the first `maxEvents`. -/
def extractCriticalEvents (indexed : List (Nat × PyVal)) (maxEvents : Nat) :
    List CritEvent :=
  (sortBy (fun a b => a.score ≤ b.score) (indexed.map mkCritEvent)).take maxEvents

/-- `int(timestamp) / 1000000` for a `__REALTIME_TIMESTAMP` value: integers
and digit strings convert to epoch seconds, anything else raises the caught
`ValueError` (`none`). -/
def tsSecondsOf (v : PyVal) : Option Int :=
  match v with
  | .pint n => some (n / 1000000)
  | .pstr s =>
    match pyFloatOfStr s with
    | some n => some (n / 1000000)
    | none => none
  | _ => none

/-- `datetime.fromtimestamp(t).isoformat()` modelled by the injective decimal
rendering of the epoch value. -/
def isoPlain (t : Int) : String := String.mk (intStr t)

/-- Sum of a per-hour counter. -/
def sumCounts (m : List (Int × Nat)) : Nat := (m.map fun kv => kv.2).foldl (· + ·) 0

/-- `LogSummaryEngine._analyze_trends` (lines 1851–1888): hour-resolution
activity counters, top-3 peak hours, per-service activity, busiest service
(first maximum wins, as with Python `max`). -/
def analyzeTrends (logs : List PyVal) : PyVal :=
  if logs.isEmpty then .pdict []
  else
    let valid :=
      logs.filterMap fun log =>
        let ts := logGetD log "__REALTIME_TIMESTAMP" .pnone
        if ts.truthy then
          match tsSecondsOf ts with
          | some sec => some (sec / 3600, logGetD log "_SYSTEMD_UNIT" (.pstr "unknown"))
          | none => none
        else none
    let hourly := valid.foldl (fun m p => intBump m p.1) []
    let serviceTrends : List (PyVal × List (Int × Nat)) :=
      valid.foldl
        (fun m p =>
          if (m.find? fun kv => pyBeq kv.1 p.2).isSome then
            m.map fun kv => if pyBeq kv.1 p.2 then (kv.1, intBump kv.2 p.1) else kv
          else m ++ [(p.2, intBump [] p.1)]) []
    let peak := (sortBy (fun a b => b.2 ≤ a.2) hourly).take 3
    let busiest :=
      match serviceTrends with
      | [] => PyVal.pnone
      | s0 :: rest =>
        (rest.foldl (fun best sv => if sumCounts best.2 < sumCounts sv.2 then sv else best)
            s0).1
    .pdict
      [("hourly_distribution",
          .pdict (hourly.map fun p => (String.mk (intStr p.1), PyVal.pint p.2))),
        ("peak_hours",
          .plist (peak.map fun p =>
            PyVal.plist [.pstr (String.mk (intStr p.1)), .pint p.2])),
        ("active_services", .pint serviceTrends.length),
        ("busiest_service", busiest)]

/-- `LogSummaryEngine._get_time_range` (lines 1987–2008); `duration_hours`
(a decoratively rounded float in the source) is modelled as whole hours. -/
def getTimeRangeOfLogs (logs : List PyVal) : PyVal :=
  let tss :=
    logs.filterMap fun log =>
      let ts := logGetD log "__REALTIME_TIMESTAMP" .pnone
      if ts.truthy then tsSecondsOf ts else none
  match tss with
  | [] => .pdict []
  | t0 :: rest =>
    let startT := rest.foldl min t0
    let endT := rest.foldl max t0
    .pdict
      [("start", .pstr (isoPlain startT)),
        ("end", .pstr (isoPlain endT)),
        ("duration_hours", .pint ((endT - startT) / 3600))]

/-- Decimal rendering with thousands separators (Python `f"{n:,}"`). -/
def natStrComma (n : Nat) : String :=
  let ds := natStr n
  let rec go (k : Nat) (acc : List Char) (rev : List Char) : List Char :=
    match rev with
    | [] => acc
    | c :: rest =>
      if k == 3 then go 1 (c :: ',' :: acc) rest else go (k + 1) (c :: acc) rest
  String.mk (go 0 [] ds.reverse)

/-- Count lookup with default 0. -/
def cGet (m : List (String × Nat)) (k : String) : Nat :=
  match m.find? (fun kv => kv.1 == k) with
  | some kv => kv.2
  | none => 0

/-- `LogSummaryEngine._generate_summary_text` (lines 1890–1928). -/
def generateSummaryText (totalLogs : Nat) (priorityStats serviceStats : List (String × Nat))
    (criticalEvents : List CritEvent) : String :=
  let l0 := "📊 **Log Analysis Summary** - " ++ natStrComma totalLogs ++ " total entries"
  let pLines :=
    if !priorityStats.isEmpty then
      let critical := cGet priorityStats "CRITICAL" + cGet priorityStats "EMERGENCY" +
        cGet priorityStats "ALERT"
      let errC := cGet priorityStats "ERROR"
      let warnC := cGet priorityStats "WARNING"
      (if 0 < critical then ["🚨 " ++ toString critical ++ " critical/emergency events"]
        else []) ++
        (if 0 < errC then ["❌ " ++ toString errC ++ " errors"] else []) ++
        (if 0 < warnC then ["⚠️ " ++ toString warnC ++ " warnings"] else [])
    else []
  let sLines :=
    match serviceStats with
    | [] => []
    | kv :: _ => ["🔧 Most active: " ++ kv.1 ++ " (" ++ toString kv.2 ++ " logs)"]
  let cLines :=
    if !criticalEvents.isEmpty then
      ["⚡ " ++ toString criticalEvents.length ++ " high-priority events identified"]
    else []
  String.intercalate "\n" ([l0] ++ pLines ++ sLines ++ cLines)

/-- `LogSummaryEngine._generate_recommendations` (lines 1930–1985); the
`total_ceph_logs > len(service_stats) * 0.7` float comparison is the exact
rational comparison `10·total > 7·len`. -/
def generateSummaryRecs (priorityStats serviceStats : List (String × Nat))
    (criticalEvents : List CritEvent) (trends : PyVal) : List String :=
  let criticalTotal := cGet priorityStats "CRITICAL" + cGet priorityStats "EMERGENCY" +
    cGet priorityStats "ALERT"
  let r1 :=
    if 5 < criticalTotal then
      ["🚨 Immediate attention needed: " ++ toString criticalTotal ++ " critical events"]
    else []
  let errorCount := cGet priorityStats "ERROR"
  let r2 :=
    if 20 < errorCount then
      ["🔍 Investigate error patterns: " ++ toString errorCount ++ " errors found"]
    else []
  let r3 :=
    if !serviceStats.isEmpty then
      let ceph := serviceStats.filter fun kv => strIn "ceph" (pyLower kv.1.data)
      if !ceph.isEmpty then
        let totalCeph := (ceph.map fun kv => kv.2).foldl (· + ·) 0
        if 7 * serviceStats.length < 10 * totalCeph then
          ["🐙 High Ceph activity detected - monitor cluster health"]
        else []
      else []
    else []
  let r4 :=
    if !criticalEvents.isEmpty then
      let osd := criticalEvents.filter fun e => strIn "osd" (pyLower e.messagePreview.data)
      if 3 < osd.length then ["💾 Multiple OSD issues detected - check storage health"]
      else []
    else []
  let r5 :=
    match trends with
    | .pdict kvs =>
      match dGet kvs "peak_hours" with
      | some (.plist ((.plist (h :: _)) :: _)) =>
        ["📈 Peak activity: " ++ pyStr h ++ " - review load patterns"]
      | _ => []
    | _ => []
  r1 ++ r2 ++ r3 ++ r4 ++ r5

/-- The dictionary returned by `LogSummaryEngine.summarize_logs`; the keys
present only in the non-empty branch are `Option` fields. -/
structure LogSummary where
  summaryText : String
  totalLogs : Nat
  criticalEvents : List CritEvent
  trends : PyVal
  recommendations : List String
  priorityBreakdown : Option (List (String × Nat))
  serviceBreakdown : Option (List (String × Nat))
  timeRange : Option PyVal
deriving Repr, DecidableEq

/-- `LogSummaryEngine.summarize_logs` (lines 1744–1788). -/
def summarizeLogs (logs : List PyVal) (maxDetails : Nat) : LogSummary :=
  if logs.isEmpty then
    { summaryText := "No logs found", totalLogs := 0, criticalEvents := [],
      trends := .pdict [], recommendations := [], priorityBreakdown := none,
      serviceBreakdown := none, timeRange := none }
  else
    let priorityStats := analyzePriorities logs
    let serviceStats := analyzeServices logs
    let criticalEvents := extractCriticalEvents logs.enum maxDetails
    let trends := analyzeTrends logs
    { summaryText := generateSummaryText logs.length priorityStats serviceStats criticalEvents
      totalLogs := logs.length
      criticalEvents := criticalEvents
      trends := trends
      recommendations := generateSummaryRecs priorityStats serviceStats criticalEvents trends
      priorityBreakdown := some priorityStats
      serviceBreakdown := some serviceStats
      timeRange := some (getTimeRangeOfLogs logs) }

/-! ### The dual-channel executor and `search_logs`
(croit_log_tools.py lines 369–464, 731–831) -/

/-- The WebSocket failure kinds caught by `search_logs`
(`WebSocketException`, `ConnectionError`, `OSError`, `asyncio.TimeoutError`),
each of which triggers the HTTP fallback. -/
inductive WsFailureKind where
  | protocolError
  | connectionError
  | osError
  | timeoutError
deriving Repr, DecidableEq

/-- Outcome of `_execute_websocket_query`: a list of collected records, or
one of the caught exception kinds (re-raised to the caller). -/
inductive WsOutcome where
  | ok (logs : List PyVal)
  | failed (e : WsFailureKind)
deriving Repr

/-- Outcome of the HTTP GET inside `_execute_http_query`: a connection-level
`aiohttp.ClientError`, an `asyncio.TimeoutError`, or a status code with a
response body. -/
inductive HttpResult where
  | clientError
  | timeoutError
  | status (code : Int) (body : String)
deriving Repr, DecidableEq

/-- `CroitLogSearchClient._execute_http_query` (lines 779–831): every
failure mode — connection error, timeout, non-200 status, or a JSON decode
error — is caught, logged, and leaves `logs = []`; only a 200 response whose
body parses contributes `data.get("logs", [])`.  (A body that parses to a
non-object, or a non-array `logs` value, crashes the caller in the source
and is outside this value model.) -/
def executeHttpQuery (jp : JsonParser) (r : HttpResult) : List PyVal :=
  match r with
  | .clientError => []
  | .timeoutError => []
  | .status code body =>
    if code == 200 then
      match jp body with
      | .ok (.pdict kvs) =>
        match dGetD kvs "logs" (.plist []) with
        | .plist ls => ls
        | _ => []
      | .ok _ => []
      | .error _ => []
    else []

/-- The batch-export channel failed: connection error, timeout, non-200
status, or an unparseable body. -/
def httpChannelFailed (jp : JsonParser) : HttpResult → Bool
  | .clientError => true
  | .timeoutError => true
  | .status code body =>
    code != 200 ||
      (match jp body with
        | .ok _ => false
        | .error _ => true)

/-- The result dictionary of `CroitLogSearchClient.search_logs`
(lines 450–459).  Note the shape: there is no error field of any kind — the
only diagnostic carriers are `insights` and the summary. -/
structure SearchResult where
  query : String
  intent : Intent
  totalCount : Nat
  results : List PyVal
  patterns : List PyVal
  insights : Insights
  summary : LogSummary
  truncationInfo : PyVal
deriving Repr, DecidableEq

/-- The post-channel pipeline of `search_logs` (lines 412–459): pattern
analysis (skipped for empty logs), insights, the log summary
(`max_details=20`), intelligent truncation above 100 records (top-50
critical by identity-deduplicated merge with the 50 most recent, capped at
100) or the simple 100-cap otherwise, assembled into the result
dictionary. -/
def mkSearchResult (query : String) (intent : Intent)
    (isoMin : String → Option Int) (logs : List PyVal) : SearchResult :=
  let patterns := if logs.isEmpty then [] else analyzePatterns isoMin logs
  let insights := generateInsights logs patterns
  let logSummary := summarizeLogs logs 20
  let resTrunc : List PyVal × PyVal :=
    if !logs.isEmpty && 100 < logs.length then
      let criticalPairs := (logSummary.criticalEvents.take 50).map fun e => (e.logIdx, e.log)
      let criticalIds := criticalPairs.map Prod.fst
      let recent :=
        ((logs.enum.drop (logs.length - 50)).filter fun p =>
            !criticalIds.contains p.1).map Prod.snd
      let intRes := (criticalPairs.map Prod.snd ++ recent).take 100
      (intRes,
        .pdict
          [("total_logs", .pint logs.length),
            ("shown_logs", .pint intRes.length),
            ("critical_events_shown", .pint criticalPairs.length),
            ("recent_logs_shown", .pint recent.length),
            ("truncation_method", .pstr "intelligent_priority")])
    else
      let intRes := if logs.isEmpty then [] else logs.take 100
      (intRes,
        .pdict
          [("total_logs", .pint (if logs.isEmpty then 0 else logs.length)),
            ("shown_logs", .pint intRes.length),
            ("truncation_method", .pstr "simple_limit")])
  { query := query
    intent := intent
    totalCount := if logs.isEmpty then 0 else logs.length
    results := resTrunc.1
    patterns := patterns.take 10
    insights := insights
    summary := logSummary
    truncationInfo := resTrunc.2 }

/-- `CroitLogSearchClient.search_logs` (lines 369–464) for a fresh client
(the per-client result cache is empty, as on any first-time query): parse
the intent, build the query, execute it over the WebSocket channel, fall
back to `_execute_http_query` on any caught WebSocket failure, then run the
analysis pipeline on whatever list came back.  The `limit` argument shapes
only the outbound request payload, not the result post-processing. -/
def searchLogs (now : Int) (isoMin : String → Option Int) (jp : JsonParser)
    (searchQuery : String) (ws : WsOutcome) (http : HttpResult) : SearchResult :=
  let intent := parse now searchQuery
  let query := build intent
  let logs :=
    match ws with
    | .ok ls => ls
    | .failed _ => executeHttpQuery jp http
  mkSearchResult query intent isoMin logs

/-!
## Concrete inputs used by the witnesses and counterexamples below
-/

/-- The eight severity names of the documented enum. -/
def severityEnumNames : List String :=
  ["EMERGENCY", "ALERT", "CRITICAL", "ERROR", "WARNING", "NOTICE", "INFO", "DEBUG"]

/-- A permissive regex oracle for the C6 witness. -/
def c6rgx : Rgx := fun _ => some fun _ => true

/-- The C6 witness filter set. -/
def c6filters : List (String × PyVal) :=
  [("status", .pstr "error"), ("_has", .pstr "id")]

/-- The C6 witness data. -/
def c6data : PyVal :=
  .plist
    [.pdict [("status", .pstr "error"), ("id", .pint 1)], .pstr "junk",
      .pdict [("status", .pstr "ok")]]

/-- The C10 witness regex oracle. -/
def c10rgx : Rgx := fun _ => some fun _ => false

/-- The C10 witness filter set (refers to no field of the dropped items). -/
def c10filters : List (String × PyVal) := [("_has", .pstr "name")]

/-- The C8 counterexample JSON parser: every line fails to parse. -/
def c8jp : JsonParser := fun _ => .error "Expecting value: line 1 column 1 (char 0)"

/-- The C8 witness JSON parser: the line `x` fails, everything else
parses. -/
def c8wjp : JsonParser :=
  fun s => if s == "x" then .error "bad" else .ok (.pint 1)

/-- The C9 cache state: one entry inserted at time 0 with TTL 60. -/
def c9url : String := "https://croit.host/api/status"

/-- A fresh cache holding `.pint 7` under `c9url`, created at 0, TTL 60. -/
def c9cache : ResponseCache :=
  (ResponseCache.mk 100 300 [] []).set 0 c9url "GET" (.pint 7) none (some 60)

/-- The C1 counterexample JSON parser (every body fails to decode). -/
def c1jp : JsonParser := fun _ => .error "Expecting value: line 1 column 1 (char 0)"

/-- The C1 timestamp oracle (no timestamps parse; irrelevant to the
result). -/
def c1isoMin : String → Option Int := fun _ => none

/-- The C1 search text. -/
def c1query : String := "find osd errors in the last hour"

/-!
# Supporting lemmas
-/

theorem mem_sAdd {y x : String} {s : List String} :
    y ∈ sAdd s x ↔ y ∈ s ∨ y = x := by
  by_cases h : x ∈ s
  · simp only [sAdd, if_pos h]
    constructor
    · exact Or.inl
    · rintro (hy | rfl)
      · exact hy
      · exact h
  · simp [sAdd, if_neg h, List.mem_append]

theorem mem_sUnion {y : String} :
    ∀ {xs s : List String}, y ∈ sUnion s xs ↔ y ∈ s ∨ y ∈ xs := by
  intro xs
  induction xs with
  | nil => intro s; simp [sUnion]
  | cons a as ih =>
    intro s
    have hstep : sUnion s (a :: as) = sUnion (sAdd s a) as := rfl
    rw [hstep, ih, mem_sAdd]
    simp only [List.mem_cons]
    tauto

theorem hasPre_trans :
    ∀ {p q s : List Char}, hasPre p q = true → hasPre q s = true → hasPre p s = true := by
  intro p
  induction p with
  | nil => intro q s _ _; rfl
  | cons a ps ih =>
    intro q s hpq hqs
    cases q with
    | nil => simp [hasPre] at hpq
    | cons b qs =>
      cases s with
      | nil => simp [hasPre] at hqs
      | cons c cs =>
        simp only [hasPre, Bool.and_eq_true, beq_iff_eq] at hpq hqs ⊢
        exact ⟨hpq.1.trans hqs.1, ih hpq.2 hqs.2⟩

theorem containsSub_mono {p q : List Char} (hpq : hasPre p q = true) :
    ∀ {s : List Char}, containsSub q s = true → containsSub p s = true := by
  intro s
  induction s with
  | nil =>
    intro hq
    simp only [containsSub, List.isEmpty_iff] at hq
    subst hq
    cases p with
    | nil => rfl
    | cons a ps => simp [hasPre] at hpq
  | cons c cs ih =>
    intro h
    simp only [containsSub, Bool.or_eq_true] at h ⊢
    rcases h with h | h
    · exact Or.inl (hasPre_trans hpq h)
    · exact Or.inr (ih h)

theorem containsAny_of_mem (w : List Char) {ws : List (List Char)} {s : List Char}
    (hw : w ∈ ws) (h : containsSub w s = true) : containsAny ws s = true := by
  unfold containsAny
  rw [List.any_eq_true]
  exact ⟨w, hw, h⟩

/-! ## Parser lemmas -/

set_option maxHeartbeats 1600000 in
theorem ladderExplicit_subset {il : List Char} {kw l0 : List String} :
    ∀ x ∈ ladderExplicit il kw l0, x ∈ l0 ∨ x ∈ severityEnumNames := by
  intro x hx
  unfold ladderExplicit at hx
  repeat' split at hx
  all_goals
    first
    | exact Or.inl hx
    | exact absurd hx (List.not_mem_nil x)
    | (rw [mem_sUnion] at hx
       rcases hx with h | h
       · exact Or.inl h
       · exact Or.inr (by fin_cases h <;> decide))

theorem ladderKernel_subset {il : List Char} {l : List String} :
    ∀ x ∈ ladderKernel il l, x ∈ l ∨ x ∈ severityEnumNames := by
  intro x hx
  unfold ladderKernel at hx
  split at hx
  · rw [mem_sUnion] at hx
    rcases hx with h | h
    · exact Or.inl h
    · exact Or.inr (by fin_cases h <;> decide)
  · exact Or.inl hx

theorem ladderDefaults_subset {il : List Char} {l : List String} :
    ∀ x ∈ ladderDefaults il l, x ∈ l ∨ x ∈ severityEnumNames := by
  intro x hx
  unfold ladderDefaults at hx
  repeat' split at hx
  all_goals
    first
    | exact Or.inl hx
    | exact absurd hx (List.not_mem_nil x)
    | (rw [mem_sUnion] at hx
       rcases hx with h | h
       · exact Or.inl h
       · exact Or.inr (by fin_cases h <;> decide))

theorem ladderPerf_subset {il : List Char} {l : List String} :
    ∀ x ∈ ladderPerf il l, x ∈ l ∨ x ∈ severityEnumNames := by
  intro x hx
  unfold ladderPerf at hx
  repeat' split at hx
  all_goals
    first
    | exact Or.inl hx
    | (rw [mem_sUnion] at hx
       rcases hx with h | h
       · exact Or.inl h
       · exact Or.inr (by fin_cases h <;> decide))

theorem levelLadder_subset {intent : List Char} {kw l0 : List String} :
    ∀ x ∈ levelLadder intent kw l0, x ∈ l0 ∨ x ∈ severityEnumNames := by
  intro x hx
  unfold levelLadder at hx
  rcases ladderPerf_subset x hx with h | h
  · rcases ladderDefaults_subset x h with h | h
    · rcases ladderKernel_subset x h with h | h
      · rcases ladderExplicit_subset x h with h | h
        · exact Or.inl h
        · exact Or.inr h
      · exact Or.inr h
    · exact Or.inr h
  · exact Or.inr h

theorem mem_foldl_sUnion (f : TopicPattern → List String) :
    ∀ (ps : List TopicPattern) (acc : List String) (x : String),
      x ∈ ps.foldl (fun a p => sUnion a (f p)) acc → x ∈ acc ∨ ∃ p ∈ ps, x ∈ f p := by
  intro ps
  induction ps with
  | nil => intro acc x hx; exact Or.inl hx
  | cons p ps ih =>
    intro acc x hx
    rcases ih (sUnion acc (f p)) x hx with h | ⟨q, hq, hxq⟩
    · rw [mem_sUnion] at h
      rcases h with h | h
      · exact Or.inl h
      · exact Or.inr ⟨p, by simp, h⟩
    · exact Or.inr ⟨q, by simp [hq], hxq⟩

theorem patternsTable_levels {p : TopicPattern} (hp : p ∈ patternsTable) :
    ∀ x ∈ p.levels, x ∈ (["ERROR", "WARN", "FATAL"] : List String) := by
  simp only [patternsTable, List.mem_cons, List.not_mem_nil, or_false] at hp
  rcases hp with rfl | rfl | rfl | rfl | rfl <;>
    (intro x hx; fin_cases hx <;> decide)

/-- The `levels` field of a parsed intent, unfolded (definitional). -/
theorem parse_levels_eq (now : Int) (text : String) :
    (parse now text).levels =
      levelLadder (workingIntent text)
        ((patternsTable.filter fun p => p.fires (workingIntent text)).foldl
          (fun acc p => sUnion acc p.keywords) [])
        ((patternsTable.filter fun p => p.fires (workingIntent text)).foldl
          (fun acc p => sUnion acc p.levels) []) := rfl

theorem ladderExplicit_clear {il : List Char} {kw l0 : List String}
    (h : strIn "all level" il = true ∨ strIn "everything" il = true) :
    ladderExplicit il kw l0 = [] := by
  unfold ladderExplicit
  rcases h with h | h <;> simp [h]

theorem ladderKernel_of_skip {il : List Char} {l : List String}
    (h : containsAny kernelSkipWords il = true) : ladderKernel il l = l := by
  unfold ladderKernel
  rw [h]
  simp

theorem ladderDefaults_of_skip {il : List Char} {l : List String}
    (h : containsAny (problemIndicators ++ ["all", "everything"].map String.data) il
      = true) : ladderDefaults il l = l := by
  unfold ladderDefaults
  rw [h]
  simp

/-!
# Claim C3 — "all levels"/"everything" always yields an empty severity set
-/

/-- C3 counterexample: the input `"show all levels for slow requests"`
contains the phrase `"all levels"`, yet the parsed intent's severity set is
`{INFO, NOTICE, WARNING, ERROR}`, not empty — the performance-indicator
widening (`"slow"`) re-populates the set after the `"all levels"` branch
cleared it, so the claim "always yields an empty severity set regardless of
other matched patterns" is false. -/
theorem c3_counterexample :
    strIn "all levels" "show all levels for slow requests".data = true ∧
      (parse 0 "show all levels for slow requests").levels =
        ["INFO", "NOTICE", "WARNING", "ERROR"] :=
  ⟨by decide, by decide⟩

/-- C3 amended: for every input whose lowercased, service-translated working
text contains `"all levels"` or `"everything"`, the parsed severity set is
empty — unless the text also contains a performance-indicator word
(`performance`, `slow`, `fast`, `latency`, `throughput`, `bandwidth`), in
which case it is exactly `{INFO, NOTICE, WARNING, ERROR}`. -/
theorem c3_all_levels_amended (now : Int) (text : String)
    (h : strIn "all levels" (pyLower (workingIntent text)) = true ∨
      strIn "everything" (pyLower (workingIntent text)) = true) :
    (parse now text).levels =
      (if containsAny performanceIndicators (pyLower (workingIntent text)) then
        ["INFO", "NOTICE", "WARNING", "ERROR"] else []) := by
  have hclear : ∀ kw l0 : List String,
      ladderExplicit (pyLower (workingIntent text)) kw l0 = [] := by
    intro kw l0
    apply ladderExplicit_clear
    rcases h with h | h
    · exact Or.inl (containsSub_mono (by decide) h)
    · exact Or.inr h
  have hK : containsAny kernelSkipWords (pyLower (workingIntent text)) = true := by
    rcases h with h | h
    · exact containsAny_of_mem "all".data (by decide)
        (containsSub_mono (by decide) h)
    · exact containsAny_of_mem "everything".data (by decide) h
  have hD : containsAny (problemIndicators ++ ["all", "everything"].map String.data)
      (pyLower (workingIntent text)) = true := by
    rcases h with h | h
    · exact containsAny_of_mem "all".data (by decide)
        (containsSub_mono (by decide) h)
    · exact containsAny_of_mem "everything".data (by decide) h
  rw [parse_levels_eq]
  unfold levelLadder
  rw [hclear, ladderKernel_of_skip hK, ladderDefaults_of_skip hD]
  unfold ladderPerf
  by_cases hp : containsAny performanceIndicators (pyLower (workingIntent text)) = true
  · rw [hp]
    decide
  · rw [Bool.not_eq_true] at hp
    rw [hp]
    simp

/-- C3 amended, witnessed at `"show all levels now"` (no performance word:
the severity set comes out empty). -/
theorem c3_all_levels_amended_witness :
    (strIn "all levels" (pyLower (workingIntent "show all levels now")) = true ∨
      strIn "everything" (pyLower (workingIntent "show all levels now")) = true) ∧
    (parse 0 "show all levels now").levels =
      (if containsAny performanceIndicators
          (pyLower (workingIntent "show all levels now")) then
        ["INFO", "NOTICE", "WARNING", "ERROR"] else []) :=
  ⟨Or.inl (by decide), c3_all_levels_amended 0 "show all levels now" (Or.inl (by decide))⟩

/-!
# Claim C4 — parsed severities lie in the Severity enum
-/

/-- C4 counterexample: parsing `"osd failure"` produces the severity `FATAL`
(contributed by the `osd_issues` topic pattern), which is not a member of the
documented enum `{EMERGENCY, ALERT, CRITICAL, ERROR, WARNING, NOTICE, INFO,
DEBUG}` — the pattern table also emits `WARN` and `FATAL`. -/
theorem c4_counterexample :
    "FATAL" ∈ (parse 0 "osd failure").levels ∧ "FATAL" ∉ severityEnumNames :=
  ⟨by decide, by decide⟩

/-- C4 amended: every severity produced by the parser is a member of the
documented enum extended with the two pattern-table names `WARN` and
`FATAL`. -/
theorem c4_severities_amended (now : Int) (text : String) :
    ∀ l ∈ (parse now text).levels, l ∈ severityEnumNames ++ ["WARN", "FATAL"] := by
  intro l hl
  rw [parse_levels_eq] at hl
  rcases levelLadder_subset l hl with h | h
  · rcases mem_foldl_sUnion _ _ [] l h with h0 | ⟨p, hp, hpl⟩
    · exact absurd h0 (List.not_mem_nil l)
    · have hmem := patternsTable_levels (List.mem_filter.mp hp).1 l hpl
      fin_cases hmem <;> decide
  · exact List.mem_append.mpr (Or.inl h)

/-- C4 amended, witnessed at `"osd failure"` and the severity `FATAL`. -/
theorem c4_severities_amended_witness :
    "FATAL" ∈ (parse 0 "osd failure").levels ∧
      "FATAL" ∈ severityEnumNames ++ ["WARN", "FATAL"] :=
  ⟨by decide, c4_severities_amended 0 "osd failure" "FATAL" (by decide)⟩

/-!
# Claim C5 — the time-range clause comes first in the built query
-/

/-- C5: for every intent whose time range carries a (truthy, i.e. nonempty)
start and end, the flat LogsQL string starts with the time-range clause: it
is the head of the AND-joined clause list, before any service, severity or
keyword clause. -/
theorem c5_time_clause_first (intent : Intent) (tr : TimeRange)
    (h1 : intent.timeRange = some tr) (h2 : tr.start.isEmpty = false)
    (h3 : tr.endT.isEmpty = false) :
    ∃ rest, build intent = joinAnd (timeClause tr.start tr.endT :: rest) := by
  refine ⟨groupClause (intent.services.map fun s => "service:" ++ s) ++
    groupClause (intent.levels.map fun l => "level:" ++ l) ++
    groupClause (intent.keywords.map fun k => "_msg:\"" ++ k ++ "\""), ?_⟩
  unfold build
  rw [h1]
  simp [h2, h3]

/-- C5, witnessed at a concrete intent with time range `[0Z, 3600Z]`. -/
theorem c5_time_clause_first_witness :
    ∃ rest,
      build
          { qtype := "query", services := ["ceph-osd"], levels := ["ERROR"],
            keywords := [], timeRange := some ⟨"0Z", "3600Z"⟩ } =
        joinAnd (timeClause "0Z" "3600Z" :: rest) :=
  c5_time_clause_first _ ⟨"0Z", "3600Z"⟩ rfl (by decide) (by decide)

/-!
# Claim C2 — `optimize_api_response` is the identity on small lists
-/

/-- C2: for every list of at most 5 items, with optimization not disabled
and no requested fields, `optimize_api_response` returns the data
unchanged. -/
theorem c2_small_identity (url method : String) (l : List PyVal)
    (params : Option (List (String × PyVal))) (rid : String)
    (hlen : l.length ≤ 5) (hno : noOptimize params = false) :
    optimizeApiResponse url method (.plist l) params [] rid = .plist l := by
  unfold optimizeApiResponse
  rw [hno]
  simp [hlen]

/-- C2, witnessed at a two-element list. -/
theorem c2_small_identity_witness :
    optimizeApiResponse "/api/servers" "GET" (.plist [.pint 1, .pint 2]) none []
        "rid" = .plist [.pint 1, .pint 2] :=
  c2_small_identity "/api/servers" "GET" [.pint 1, .pint 2] none "rid"
    (by decide) (by decide)

/-!
# Claim C7 — truncation never grows a list and reports the true original count
-/

/-- C7: for every list, URL and cap, `truncate_response` returns either the
list itself or the truncation wrapper; the wrapper's `data` holds a prefix
no longer than the input and its `original_count` is exactly the input
length. -/
theorem c7_truncate_bounds (l : List PyVal) (url : String) (maxItems : Nat) :
    truncateResponse (.plist l) url maxItems = .plist l ∨
      ∃ m, truncateResponse (.plist l) url maxItems =
          truncWrapper (l.take m) l.length m ∧ (l.take m).length ≤ l.length := by
  by_cases hle : l.length ≤ maxItems
  · left
    simp [truncateResponse, hle]
  · right
    refine
      ⟨if (strIn "/log" (pyLower url.data) || strIn "/audit" (pyLower url.data)) = true then
          min 100 l.length
        else if strIn "/stats" (pyLower url.data) = true then min 75 l.length
        else if (strIn "/services" (pyLower url.data) || strIn "/servers" (pyLower url.data) ||
            strIn "/osds" (pyLower url.data)) = true then min 25 l.length
        else maxItems, ?_, ?_⟩
    · simp [truncateResponse, hle]
    · simp only [List.length_take]
      omega

/-!
# Claims C6 and C10 — `apply_filters`
-/

theorem applyFilters_skip {rgx : Rgx} {data : PyVal} {F : List (String × PyVal)}
    (h : (F.isEmpty || !data.truthy) = true) : applyFilters rgx data F = data := by
  unfold applyFilters
  rw [if_pos h]

theorem applyFilters_list {rgx : Rgx} {F : List (String × PyVal)} {xs : List PyVal}
    (hF : F.isEmpty = false) (hxs : xs ≠ []) :
    applyFilters rgx (.plist xs) F = .plist (xs.filter (keepItem rgx F)) := by
  unfold applyFilters
  have hc : (F.isEmpty || !(PyVal.plist xs).truthy) = false := by
    simp [PyVal.truthy, hF, hxs]
  rw [hc]
  simp [PyVal.isList]

theorem applyFilters_single {rgx : Rgx} {F : List (String × PyVal)} {d : PyVal}
    (hF : F.isEmpty = false) (ht : d.truthy = true) (hl : d.isList = false) :
    applyFilters rgx d F = if keepItem rgx F d then d else .plist [] := by
  cases d with
  | pnone => simp [PyVal.truthy] at ht
  | plist xs => simp [PyVal.isList] at hl
  | pbool b =>
    simp only [PyVal.truthy] at ht
    simp [applyFilters, PyVal.truthy, hF, ht, PyVal.isList, keepItem]
  | pint n =>
    simp only [PyVal.truthy] at ht
    simp [applyFilters, PyVal.truthy, hF, ht, PyVal.isList, keepItem]
  | pstr s =>
    simp only [PyVal.truthy] at ht
    simp [applyFilters, PyVal.truthy, hF, ht, PyVal.isList, keepItem]
  | pdict kvs =>
    simp only [PyVal.truthy] at ht
    by_cases hk : itemMatchesFilters rgx kvs F = true <;>
      simp [applyFilters, PyVal.truthy, hF, ht, PyVal.isList, keepItem, hk]

theorem applyFilters_single_idem {rgx : Rgx} {F : List (String × PyVal)} {d : PyVal}
    (hF : F.isEmpty = false) (ht : d.truthy = true) (hl : d.isList = false) :
    applyFilters rgx (applyFilters rgx d F) F = applyFilters rgx d F := by
  rw [applyFilters_single hF ht hl]
  by_cases hk : keepItem rgx F d = true
  · rw [if_pos hk, applyFilters_single hF ht hl, if_pos hk]
  · rw [if_neg hk]
    exact applyFilters_skip (by simp [PyVal.truthy])

/-- C6: `apply_filters` is idempotent — filtering a filtered result with the
same filter set changes nothing.  The well-formedness hypothesis records
that a `_text` filter value is a string (a non-string would raise in the
source rather than return). -/
theorem c6_filters_idempotent (rgx : Rgx) (data : PyVal)
    (F : List (String × PyVal))
    (_hwf : ∀ kv ∈ F, kv.1 = "_text" → kv.2.isStr = true) :
    applyFilters rgx (applyFilters rgx data F) F = applyFilters rgx data F := by
  by_cases hF : F.isEmpty = true
  · have h : applyFilters rgx data F = data := applyFilters_skip (by simp [hF])
    rw [h]
    exact h
  · have hF' : F.isEmpty = false := Bool.eq_false_iff.mpr hF
    by_cases ht : data.truthy = true
    · cases data with
      | pnone => simp [PyVal.truthy] at ht
      | pbool b => exact applyFilters_single_idem hF' ht rfl
      | pint n => exact applyFilters_single_idem hF' ht rfl
      | pstr s => exact applyFilters_single_idem hF' ht rfl
      | pdict kvs => exact applyFilters_single_idem hF' ht rfl
      | plist xs =>
        have hxs : xs ≠ [] := by
          intro h0
          subst h0
          simp [PyVal.truthy] at ht
        rw [applyFilters_list hF' hxs]
        by_cases hfe : xs.filter (keepItem rgx F) = []
        · rw [hfe]
          exact applyFilters_skip (by simp [PyVal.truthy])
        · rw [applyFilters_list hF' hfe]
          congr 1
          simp [List.filter_filter]
    · have ht' : (!data.truthy) = true := by
        simp [Bool.eq_false_iff.mpr ht]
      have h : applyFilters rgx data F = data := applyFilters_skip (by simp [ht'])
      rw [h]
      exact h

/-- C6, witnessed at a mixed list under an equality plus existence filter. -/
theorem c6_filters_idempotent_witness :
    (∀ kv ∈ c6filters, kv.1 = "_text" → kv.2.isStr = true) ∧
      applyFilters c6rgx (applyFilters c6rgx c6data c6filters) c6filters =
        applyFilters c6rgx c6data c6filters :=
  ⟨by decide, c6_filters_idempotent c6rgx c6data c6filters (by decide)⟩

/-- C10: on a list with a non-empty filter set, `apply_filters` yields a
list whose every element is a dictionary (every non-dict element is dropped)
and comes from the input list. -/
theorem c10_nondict_filtered (rgx : Rgx) (F : List (String × PyVal))
    (l : List PyVal) (hF : F.isEmpty = false) :
    ∃ l', applyFilters rgx (.plist l) F = .plist l' ∧
      ∀ x ∈ l', x.isDict = true ∧ x ∈ l := by
  by_cases hl : l = []
  · subst hl
    exact ⟨[], applyFilters_skip (by simp [PyVal.truthy]), by simp⟩
  · refine ⟨l.filter (keepItem rgx F), applyFilters_list hF hl, ?_⟩
    intro x hx
    have hm := List.mem_filter.mp hx
    refine ⟨?_, hm.1⟩
    have hk := hm.2
    cases x <;> first | rfl | simp [keepItem] at hk

/-- C10, witnessed at a list holding a string, a number and a nested list
alongside a dictionary. -/
theorem c10_nondict_filtered_witness :
    ∃ l', applyFilters c10rgx
        (.plist [.pstr "a", .pint 7, .plist [], .pdict [("name", .pstr "x")]])
        c10filters = .plist l' ∧
      ∀ x ∈ l', x.isDict = true ∧
        x ∈ [PyVal.pstr "a", .pint 7, .plist [], .pdict [("name", .pstr "x")]] :=
  c10_nondict_filtered c10rgx c10filters
    [.pstr "a", .pint 7, .plist [], .pdict [("name", .pstr "x")]] (by decide)

/-!
# Claim C8 — ZIP extraction preserves unparseable lines
-/

theorem extractFileGo_length (jp : JsonParser) :
    ∀ (lines : List (List Char)) (n : Nat),
      ((List.enumFrom n lines).filterMap fun il =>
          if (pyStrip il.2).isEmpty then none
          else
            match jp (String.mk il.2) with
            | .ok v => some v
            | .error e => some (taggedRecord il.2 e il.1)).length =
        (lines.filter fun ln => !(pyStrip ln).isEmpty).length := by
  intro lines
  induction lines with
  | nil => intro n; rfl
  | cons ln rest ih =>
    intro n
    by_cases hb : pyStrip ln = []
    · simp only [List.isEmpty_iff] at ih ⊢
      simp [List.enumFrom, List.filterMap_cons, hb, List.filter_cons, ih]
    · simp only [List.isEmpty_iff] at ih ⊢
      cases hjp : jp (String.mk ln) <;>
        simp [List.enumFrom, List.filterMap_cons, hb, hjp, List.filter_cons, ih]

theorem extractFileLogs_length (jp : JsonParser) (content : List Char) :
    (extractFileLogs jp content).length =
      ((fileLines content).filter fun ln => !(pyStrip ln).isEmpty).length :=
  extractFileGo_length jp (fileLines content) 0

theorem extractLogsFromZip_length (jp : JsonParser) (files : List (List Char)) :
    (extractLogsFromZip jp files).length =
      (files.map fun f =>
        ((fileLines f).filter fun ln => !(pyStrip ln).isEmpty).length).sum := by
  induction files with
  | nil => rfl
  | cons f fs ih =>
    simp only [extractLogsFromZip, List.flatMap_cons, List.length_append,
      List.map_cons, List.sum_cons]
    rw [← ih]
    simp [extractLogsFromZip, extractFileLogs_length]

theorem mem_enumFrom_of_getElem? :
    ∀ (l : List α) (n i : Nat) (x : α), l[i]? = some x → (n + i, x) ∈ l.enumFrom n := by
  intro l
  induction l with
  | nil => intro n i x h; simp at h
  | cons a as ih =>
    intro n i x h
    cases i with
    | zero =>
      simp only [List.getElem?_cons_zero, Option.some.injEq] at h
      subst h
      simp [List.enumFrom]
    | succ j =>
      simp only [List.getElem?_cons_succ] at h
      have hmem := ih (n + 1) j x h
      have e : n + (j + 1) = n + 1 + j := by omega
      rw [e]
      exact List.mem_cons_of_mem _ hmem

theorem extractFileLogs_mem (jp : JsonParser) (content : List Char) (i : Nat)
    (ln : List Char) (e : String)
    (hl : (fileLines content)[i]? = some ln)
    (hnb : (pyStrip ln).isEmpty = false)
    (he : jp (String.mk ln) = .error e) :
    taggedRecord ln e i ∈ extractFileLogs jp content := by
  unfold extractFileLogs
  apply List.mem_filterMap.mpr
  refine ⟨(i, ln), ?_, ?_⟩
  · have hmem := mem_enumFrom_of_getElem? (fileLines content) 0 i ln hl
    simpa using hmem
  · simp [hnb, he]

/-- C8 counterexample: an archive file whose content is `"a\n\nb"` has three
lines after the source's own `strip().split("\n")`, but extraction yields
only two records — the blank middle line is skipped, so the record count can
be strictly fewer than the line count, contradicting the claim's "equals the
number of lines, never fewer". -/
theorem c8_counterexample :
    (fileLines "a\n\nb".data).length = 3 ∧
      (extractLogsFromZip c8jp ["a\n\nb".data]).length = 2 ∧
      (extractLogsFromZip c8jp ["a\n\nb".data]).length <
        (fileLines "a\n\nb".data).length :=
  ⟨by decide, by decide, by decide⟩

/-- C8 amended: extraction yields exactly one record per *non-blank* line
(the record count equals the number of lines that are nonempty after
stripping), and every non-blank line whose JSON parsing fails is still
present as the raw-text record tagged with the parse error and its line
number. -/
theorem c8_zip_extraction_amended (jp : JsonParser) (files : List (List Char)) :
    (extractLogsFromZip jp files).length =
      (files.map fun f =>
        ((fileLines f).filter fun ln => !(pyStrip ln).isEmpty).length).sum ∧
    ∀ f ∈ files, ∀ (i : Nat) (ln : List Char) (e : String),
      (fileLines f)[i]? = some ln → (pyStrip ln).isEmpty = false →
      jp (String.mk ln) = .error e →
      taggedRecord ln e i ∈ extractLogsFromZip jp files := by
  refine ⟨extractLogsFromZip_length jp files, ?_⟩
  intro f hf i ln e h1 h2 h3
  unfold extractLogsFromZip
  exact List.mem_flatMap.mpr ⟨f, hf, extractFileLogs_mem jp f i ln e h1 h2 h3⟩

/-- C8 amended, witnessed at the archive `["x\ny"]`: two records for two
non-blank lines, with the failing first line preserved as a tagged raw
record. -/
theorem c8_zip_extraction_amended_witness :
    (extractLogsFromZip c8wjp ["x\ny".data]).length =
        ((["x\ny".data].map fun f =>
          ((fileLines f).filter fun ln => !(pyStrip ln).isEmpty).length).sum) ∧
      taggedRecord "x".data "bad" 0 ∈ extractLogsFromZip c8wjp ["x\ny".data] :=
  ⟨(c8_zip_extraction_amended c8wjp ["x\ny".data]).1,
    (c8_zip_extraction_amended c8wjp ["x\ny".data]).2 "x\ny".data (by decide)
      0 "x".data "bad" (by decide) (by decide) rfl⟩

/-!
# Claim C9 — cache TTL visibility
-/

theorem alGet_alDel (m : List (String × α)) (k : String) :
    alGet (alDel m k) k = none := by
  induction m with
  | nil => rfl
  | cons kv rest ih =>
    by_cases h : kv.1 = k
    · simpa [alDel, List.filter_cons, h] using ih
    · have hne : (kv.1 != k) = true := by simp [h]
      simp only [alDel, List.filter_cons, hne, if_true] at ih ⊢
      simp only [alGet, List.find?]
      have : (kv.1 == k) = false := by simp [h]
      rw [this]
      simpa [alGet] using ih

/-- C9 counterexample: the entry was created at 0 with TTL 60; the claim
says a lookup at any `now ≥ created_at + ttl` — so in particular at
`now = 60` — misses, but the code's expiry test is strict
(`now > created_at + ttl`), so the lookup at 60 still returns the cached
value. -/
theorem c9_counterexample :
    (c9cache.get 60 c9url "GET" none).1 = some (.pint 7) := by decide

/-- C9 amended: an entry is visible while `now ≤ created_at + ttl` (the hit
leaves the stored entries untouched), and a lookup with
`now > created_at + ttl` misses and removes the entry (lazy purge). -/
theorem c9_cache_visibility_amended (c : ResponseCache) (url method : String)
    (params : Option String) (e : CacheEntry) (now : Int)
    (hk : alGet c.cache (generateKey url method params) = some e) :
    (now ≤ e.timestamp + e.ttl →
        (c.get now url method params).1 = some e.data ∧
        (c.get now url method params).2.cache = c.cache) ∧
    (e.timestamp + e.ttl < now →
        (c.get now url method params).1 = none ∧
        alGet (c.get now url method params).2.cache
          (generateKey url method params) = none) := by
  constructor
  · intro hle
    have hexp : e.isExpired now = false := by
      simp only [CacheEntry.isExpired, decide_eq_false_iff_not]
      omega
    simp [ResponseCache.get, hk, hexp]
  · intro hlt
    have hexp : e.isExpired now = true := by
      simp only [CacheEntry.isExpired, decide_eq_true_eq]
      omega
    simp [ResponseCache.get, hk, hexp, alGet_alDel]

/-- C9 amended, witnessed on `c9cache` at `now = 61`: miss and removal. -/
theorem c9_cache_visibility_amended_witness :
    (c9cache.get 61 c9url "GET" none).1 = none ∧
      alGet (c9cache.get 61 c9url "GET" none).2.cache
        (generateKey c9url "GET" none) = none :=
  (c9_cache_visibility_amended c9cache c9url "GET" none ⟨.pint 7, 0, 60⟩ 61
    (by decide)).2 (by decide)

/-!
# Claim C1 — double channel failure is not an explicit error result
-/

theorem executeHttpQuery_failed {jp : JsonParser} {r : HttpResult}
    (h : httpChannelFailed jp r = true) : executeHttpQuery jp r = [] := by
  cases r with
  | clientError => rfl
  | timeoutError => rfl
  | status code body =>
    simp only [executeHttpQuery, httpChannelFailed] at h ⊢
    by_cases hc : (code == 200) = true
    · rw [if_pos hc]
      cases hjp : jp body with
      | ok v =>
        exfalso
        rw [hjp] at h
        simp [hc] at h
        exact h (by simpa using hc)
      | error msg => rfl
    · rw [if_neg hc]

/-- Unfolding `searchLogs` on a failed WebSocket channel (definitional). -/
theorem searchLogs_failed_eq (now : Int) (isoMin : String → Option Int)
    (jp : JsonParser) (q : String) (e : WsFailureKind) (http : HttpResult) :
    searchLogs now isoMin jp q (.failed e) http =
      mkSearchResult (build (parse now q)) (parse now q) isoMin
        (executeHttpQuery jp http) := rfl

/-- Unfolding `searchLogs` on a successful WebSocket channel
(definitional). -/
theorem searchLogs_ok_eq (now : Int) (isoMin : String → Option Int)
    (jp : JsonParser) (q : String) (ls : List PyVal) (http : HttpResult) :
    searchLogs now isoMin jp q (.ok ls) http =
      mkSearchResult (build (parse now q)) (parse now q) isoMin ls := rfl

/-- C1 counterexample: with the WebSocket channel failing
(`ConnectionError`) and the HTTP fallback failing (`aiohttp.ClientError`),
`search_logs` returns a result that is *identical* to the result of a
successful search that found zero logs — zero total count, empty results,
and the ordinary "No logs found matching the search criteria" insight with
severity `normal`.  There is no error field and no diagnostic reason, so the
double failure *is* reported as a silent empty success, contradicting the
claim. -/
theorem c1_counterexample :
    searchLogs 0 c1isoMin c1jp c1query (.failed .connectionError) .clientError =
        searchLogs 0 c1isoMin c1jp c1query (.ok []) .clientError ∧
      (searchLogs 0 c1isoMin c1jp c1query (.failed .connectionError)
          .clientError).results = [] ∧
      (searchLogs 0 c1isoMin c1jp c1query (.failed .connectionError)
          .clientError).totalCount = 0 ∧
      (searchLogs 0 c1isoMin c1jp c1query (.failed .connectionError)
          .clientError).insights =
        { summary := "No logs found matching the search criteria",
          severity := "normal", recommendations := [] } :=
  ⟨rfl, rfl, rfl, rfl⟩

/-- C1 amended: whenever the WebSocket channel fails with any caught
exception and the batch-export channel also fails (connection error,
timeout, non-200 status, or undecodable body), `search_logs` produces
exactly the result of a successful zero-log search — total count 0, empty
results, and the generic no-logs insight.  The double failure is masked as a
silent empty success; no error indication of any kind is attached. -/
theorem c1_double_failure_amended (now : Int) (isoMin : String → Option Int)
    (jp : JsonParser) (q : String) (e : WsFailureKind) (http : HttpResult)
    (hfail : httpChannelFailed jp http = true) :
    searchLogs now isoMin jp q (.failed e) http =
        searchLogs now isoMin jp q (.ok []) http ∧
      (searchLogs now isoMin jp q (.failed e) http).totalCount = 0 ∧
      (searchLogs now isoMin jp q (.failed e) http).results = [] ∧
      (searchLogs now isoMin jp q (.failed e) http).insights =
        { summary := "No logs found matching the search criteria",
          severity := "normal", recommendations := [] } := by
  have hh : executeHttpQuery jp http = [] := executeHttpQuery_failed hfail
  rw [searchLogs_failed_eq, searchLogs_ok_eq, hh]
  exact ⟨rfl, rfl, rfl, rfl⟩

/-- C1 amended, witnessed at a WebSocket `OSError` plus an HTTP timeout. -/
theorem c1_double_failure_amended_witness :
    httpChannelFailed c1jp .timeoutError = true ∧
      searchLogs 0 c1isoMin c1jp c1query (.failed .osError) .timeoutError =
        searchLogs 0 c1isoMin c1jp c1query (.ok []) .timeoutError :=
  ⟨rfl,
    (c1_double_failure_amended 0 c1isoMin c1jp c1query .osError .timeoutError
        rfl).1⟩

end McpCroit
